import Mathlib

/-!
Verification of the client-side game scene of a VR table-tennis game
(`src/javascripts/scene.js`).  The scene owns the score/state bookkeeping,
the reset-ball watchdog timer, the countdown interval, the restart and
countdown handshakes, and the ball-synchronization protocol for the
networked two-player mode.

The embedding below models the `Scene` class as a record of the fields the
verified claims are about, and each method as a pure state-transition
function that follows the source line by line.  Coordinates and scalar
quantities are rationals (the source uses JS doubles, but no claim depends
on rounding).  Cancellable timers of the `Time` scheduler are modelled
explicitly as a list of pending timers with unique numeric handles.
Collaborators with no effect on the modelled state (HUD, sounds, renderer,
the network send half) are omitted; where a collaborator's file is part of
the repository but not available, its definition is marked
`Modelled from the spec:` in its doc comment.
-/

namespace Konterball

/-- Three-component vector over ℚ, standing in for `three.js` `Vector3`
and `cannon.js` `Vec3`. -/
structure Vec3 where
  x : ℚ
  y : ℚ
  z : ℚ
deriving DecidableEq, Repr

/-- Componentwise vector addition (`Vector3.addVectors`). -/
def vadd (a b : Vec3) : Vec3 := ⟨a.x + b.x, a.y + b.y, a.z + b.z⟩

/-- Componentwise vector subtraction (`Vector3.subVectors`). -/
def vsub (a b : Vec3) : Vec3 := ⟨a.x - b.x, a.y - b.y, a.z - b.z⟩

/-- Linear interpolation between two vectors (`Vector3.lerpVectors`):
`a + t * (b - a)` componentwise. -/
def lerpVec (a b : Vec3) (t : ℚ) : Vec3 :=
  ⟨a.x + t * (b.x - a.x), a.y + t * (b.y - a.y), a.z + t * (b.z - a.z)⟩

/-- Squared Euclidean norm of a vector.  `Vector3.length()` is the square
root of this; square roots do not exist in ℚ, so theorems that need a
length take it as a parameter constrained by its square. -/
def normSq (v : Vec3) : ℚ := v.x * v.x + v.y * v.y + v.z * v.z

/-- Modelled from the spec: `mirrorPosition` from `util/helpers.js`, a file
of this repository that is not under `src/`.  Per the spec it reflects a
position across the table's center plane, negating the x component and
reflecting the z component about the net axis at `tablePositionZ`
(spec Scenario 3: `(0.5, 0, 1.2)` with `tablePositionZ = 2` maps to
`(-0.5, 0, 2.8)`). -/
def mirrorPosition (p : Vec3) (tablePositionZ : ℚ) : Vec3 :=
  ⟨-p.x, p.y, 2 * tablePositionZ - p.z⟩

/-- Modelled from the spec: `mirrorVelocity` from `util/helpers.js`, a file
of this repository that is not under `src/`.  Per the spec it inverts the
x and z velocity components (spec Scenario 3: `(0, 0, -2)` maps to
`(0, 0, 2)`). -/
def mirrorVelocity (v : Vec3) : Vec3 := ⟨-v.x, v.y, -v.z⟩

/-- Modelled from the spec: `cap` from `util/helpers.js`, a file of this
repository that is not under `src/`.  Per the spec it clamps a value to
the closed interval spanned by the two bounds (the source passes the
bounds in either order). -/
def cap (v a b : ℚ) : ℚ := min (max v (min a b)) (max a b)

/-- Game mode (`MODE` from `constants.js`). -/
inductive Mode where
  | singleplayer
  | multiplayer
deriving DecidableEq, Repr

/-- Game state (`STATE` from `constants.js`). -/
inductive GState where
  | menu
  | countdown
  | playing
  | gameOver
deriving DecidableEq, Repr

/-- A pending timer of the `Time` scheduler: either the reset-ball watchdog
timeout, or the countdown interval together with the current value of the
captured counter `n` (`scene.js` line 594). -/
inductive TimerKind where
  | reset
  | interval (n : ℤ)
deriving DecidableEq, Repr

/-- Whether a pending timer is the reset-ball watchdog. -/
def isReset : TimerKind → Bool
  | .reset => true
  | .interval _ => false

/-- The score record `{self, opponent, lives, highest}` (`scene.js`
lines 57–62). -/
structure Score where
  self : ℤ
  opponent : ℤ
  lives : ℤ
  highest : ℤ
deriving DecidableEq, Repr

/-- The state of the `Scene` instance: every field of the class that the
verified claims depend on.  `pending` / `nextId` model the `Time`
scheduler's set of outstanding cancellable timers (Modelled from the spec:
`util/time.js` is a file of this repository not under `src/`; per the spec
it provides cancellable timeouts and intervals identified by handles). -/
structure SceneState where
  mode : Mode
  gstate : GState
  isHost : Bool
  score : Score
  startLives : ℤ
  pointsForWin : ℤ
  tablePositionZ : ℚ
  playerRequestedRestart : Bool
  opponentRequestedRestart : Bool
  playerRequestedCountdown : Bool
  opponentRequestedCountdown : Bool
  ballHasHitEnemyTable : Bool
  ballExists : Bool
  resetBallTimeout : Option ℕ
  pending : List (ℕ × TimerKind)
  nextId : ℕ
  ballPos : Vec3
  ballVel : Vec3
  ballPositionDifference : Option Vec3
  ballInterpolationAlpha : ℚ
deriving DecidableEq, Repr

/-- Scheduler primitive: cancel the pending timer with the given handle
(no-op when no such timer is pending). -/
def removeTimer (i : ℕ) (s : SceneState) : SceneState :=
  { s with pending := s.pending.filter fun t => t.1 != i }

/-- `this.time.clearTimeout(handle)`: a `null` handle, or a handle of a
timer that already fired, cancels nothing. -/
def clearT (h : Option ℕ) (s : SceneState) : SceneState :=
  match h with
  | none => s
  | some i => removeTimer i s

/-- Scheduler primitive used by `restartPingpongTimeout`: schedule the
reset-ball timeout with a fresh handle and store the handle in
`this.resetBallTimeout` (`scene.js` line 822). -/
def scheduleReset (s : SceneState) : SceneState :=
  { s with
    pending := (s.nextId, TimerKind.reset) :: s.pending
    resetBallTimeout := some s.nextId
    nextId := s.nextId + 1 }

/-- Scheduler primitive used by `countdown`: schedule the countdown
interval with a fresh handle; its captured counter starts at `n`
(`scene.js` lines 594–595). -/
def scheduleInterval (n : ℤ) (s : SceneState) : SceneState :=
  { s with
    pending := (s.nextId, TimerKind.interval n) :: s.pending
    nextId := s.nextId + 1 }

/-- `restartPingpongTimeout` (`scene.js` lines 815–823): cancel the stored
reset timer, then — unless the game is over — schedule a fresh one. -/
def restartPingpongTimeout (s : SceneState) : SceneState :=
  let s1 := clearT s.resetBallTimeout s
  if s1.gstate = GState.gameOver then s1 else scheduleReset s1

/-- `onGameOver` (`scene.js` lines 283–308): sets `config.state` to
`GAME_OVER` and cancels the stored reset timer.  (HUD, sound and
transparency effects have no modelled state.) -/
def onGameOver (s : SceneState) : SceneState :=
  let s1 := { s with gstate := GState.gameOver }
  clearT s1.resetBallTimeout s1

/-- Modelled from the spec: `physics.initBallPosition()` lives in
`physics.js`, a file of this repository that is not under `src/`.  Per the
spec it respawns the ball at its fixed initial serve position; the exact
coordinates are immaterial to every claim, so a fixed representative value
is used. -/
def initBallPosition (s : SceneState) : SceneState :=
  { s with ballPos := ⟨0, 1, 1⟩, ballVel := ⟨0, 0, 0⟩ }

/-- `addBall` (`scene.js` lines 874–885): sets the state to `PLAYING`; if
a ball already exists it is made visible and respawned, otherwise a ball
entity is created; in both cases the reset timer is restarted. -/
def addBall (s : SceneState) : SceneState :=
  let s1 := { s with gstate := GState.playing }
  if s1.ballExists then restartPingpongTimeout (initBallPosition s1)
  else restartPingpongTimeout { s1 with ballExists := true }

/-- `resetScore` (`scene.js` lines 644–653). -/
def resetScore (s : SceneState) : SceneState :=
  { s with score := { self := 0, opponent := 0, highest := 0, lives := s.startLives } }

/-- `countdown` (`scene.js` lines 580–622): enters the `COUNTDOWN` state
and starts the countdown interval with the captured counter `n = 2`.
The interval body is modelled by `fireInterval`. -/
def countdown (s : SceneState) : SceneState :=
  scheduleInterval 2 { s with gstate := GState.countdown }

/-- `requestCountdown` (`scene.js` lines 574–578): starts the countdown
only when both sides requested it. -/
def requestCountdown (s : SceneState) : SceneState :=
  if s.playerRequestedCountdown && s.opponentRequestedCountdown then countdown s else s

/-- `restartGame` (`scene.js` lines 624–642): resets the score
unconditionally; in singleplayer restarts immediately, in multiplayer
only when both restart flags are set (in which case the flags are
cleared).  (`physics.speed` and the crosshair are not modelled state.) -/
def restartGame (s : SceneState) : SceneState :=
  let s1 := resetScore s
  if s1.mode = Mode.singleplayer then countdown s1
  else if s1.opponentRequestedRestart && s1.playerRequestedRestart then
    countdown { s1 with playerRequestedRestart := false, opponentRequestedRestart := false }
  else s1

/-- `onRestartButtonPressed` (`scene.js` lines 310–319): in multiplayer,
records the local restart request and notifies the peer; in both modes
then calls `restartGame`. -/
def onRestartButtonPressed (s : SceneState) : SceneState :=
  if s.mode = Mode.multiplayer then restartGame { s with playerRequestedRestart := true }
  else restartGame s

/-- `onReceivedRestartGame` (`scene.js` lines 723–727). -/
def onReceivedRestartGame (s : SceneState) : SceneState :=
  restartGame { s with opponentRequestedRestart := true }

/-- `onReceivedRequestCountdown` (`scene.js` lines 795–798). -/
def onReceivedRequestCountdown (s : SceneState) : SceneState :=
  requestCountdown { s with opponentRequestedCountdown := true }

/-- `startGame` (`scene.js` lines 489–531), restricted to its modelled
effects: singleplayer starts the countdown at once; multiplayer records
the local countdown request, sends `RequestCountdown`, and tries the
two-sided handshake. -/
def startGame (s : SceneState) : SceneState :=
  if s.mode = Mode.multiplayer then requestCountdown { s with playerRequestedCountdown := true }
  else countdown s

/-- `onBallPaddleCollision` (`scene.js` lines 246–273), on the path where
the hit animation guard passes: clears `ballPositionDifference`, restarts
the reset timer, clears `ballHasHitEnemyTable`; in singleplayer increments
the player's score, in multiplayer computes the send-side speed
compensation and transmits the hit (no modelled local state change;
`slowdownBall` is verified separately). -/
def onBallPaddleCollision (s : SceneState) : SceneState :=
  let s1 := { s with ballPositionDifference := none }
  let s2 := restartPingpongTimeout s1
  let s3 := { s2 with ballHasHitEnemyTable := false }
  if s3.mode = Mode.singleplayer then
    { s3 with score := { s3.score with self := s3.score.self + 1 } }
  else s3

/-- `onReceivedHit` (`scene.js` lines 729–760): cancels the stored reset
timer; lazily creates a ball when none exists; when the message is a real
hit (`wasMiss = false`) records the difference between the locally
simulated ball position and the mirrored reported point, sets
`ballInterpolationAlpha` to 1 and starts its 500 ms linear decay tween
(modelled by `interpStep`); finally overwrites the physics ball with the
mirrored point and the mirrored velocity. -/
def onReceivedHit (point vel : Vec3) (wasMiss : Bool) (s : SceneState) : SceneState :=
  let s1 := clearT s.resetBallTimeout s
  let s2 := if s1.ballExists then s1 else addBall s1
  let s3 :=
    if wasMiss then s2
    else
      { s2 with
        ballPositionDifference :=
          some (vsub s2.ballPos (mirrorPosition point s2.tablePositionZ))
        ballInterpolationAlpha := 1 }
  { s3 with
    ballPos := mirrorPosition point s3.tablePositionZ
    ballVel := mirrorVelocity vel }

/-- `onReceivedMiss` (`scene.js` lines 762–793): clears the interpolation
difference and the stored reset timer; for a non-init miss credits the
point to the side indicated by the fault flag; for an init miss adds the
ball; then either ends the game (threshold reached) or adopts the sender's
respawned ball state via `onReceivedHit(data, true)` and returns to
`PLAYING`. -/
def onReceivedMiss (point vel : Vec3) (fault isInit : Bool) (s : SceneState) : SceneState :=
  let s1 := clearT s.resetBallTimeout { s with ballPositionDifference := none }
  let s2 :=
    if isInit then addBall s1
    else if fault then { s1 with score := { s1.score with opponent := s1.score.opponent + 1 } }
    else { s1 with score := { s1.score with self := s1.score.self + 1 } }
  if s2.pointsForWin ≤ s2.score.self ∨ s2.pointsForWin ≤ s2.score.opponent then
    onGameOver s2
  else
    { (onReceivedHit point vel true s2) with gstate := GState.playing }

/-- `resetTimeoutEnded` (`scene.js` lines 825–872), the body of the
reset-ball watchdog.  Multiplayer: credit the point according to
`ballHasHitEnemyTable`, end the game when the threshold is reached or
respawn the ball otherwise, send the miss, clear the fault flag.
Singleplayer: fold `self` into `highest`, zero `self`, respawn the ball,
lose a life, end the game when no life is left.  Both branches finish by
restarting the watchdog (a no-op reschedule when the game just ended). -/
def resetTimeoutEnded (s : SceneState) : SceneState :=
  if s.mode = Mode.multiplayer then
    let s1 :=
      if s.ballHasHitEnemyTable then
        { s with score := { s.score with self := s.score.self + 1 } }
      else
        { s with score := { s.score with opponent := s.score.opponent + 1 } }
    let s2 :=
      if s1.pointsForWin ≤ s1.score.opponent ∨ s1.pointsForWin ≤ s1.score.self then
        onGameOver s1
      else initBallPosition s1
    restartPingpongTimeout { s2 with ballHasHitEnemyTable := false }
  else
    let s1 := { s with score :=
      { s.score with highest := max s.score.self s.score.highest, self := 0 } }
    let s2 := initBallPosition s1
    let s3 := { s2 with score := { s2.score with lives := s2.score.lives - 1 } }
    let s4 := if s3.score.lives < 1 then onGameOver s3 else s3
    restartPingpongTimeout s4

/-- The actions at the end of the countdown (`scene.js` lines 598–619):
singleplayer adds the ball and respawns it; a multiplayer non-host adds
the ball and sends the initial serve as an init miss; the host waits for
that message. -/
def intervalEnd (s : SceneState) : SceneState :=
  if s.mode = Mode.singleplayer then initBallPosition (addBall s)
  else if !s.isHost then addBall s
  else s

/-- Scheduler primitive: replace the stored counter of the pending
countdown interval with handle `id` (the interval body's captured `n`
changed). -/
def mapIntervalTimer (id : ℕ) (n : ℤ) (s : SceneState) : SceneState :=
  { s with pending := s.pending.map (fun t => if t.1 = id then (id, TimerKind.interval n) else t) }

/-- One firing of the countdown interval with captured counter `n`
(`scene.js` lines 595–621): the counter decrements; when it drops below
zero the interval cancels itself and the end-of-countdown actions run,
otherwise the interval stays pending with the decremented counter. -/
def fireInterval (id : ℕ) (n : ℤ) (s : SceneState) : SceneState :=
  if n - 1 < 0 then intervalEnd (removeTimer id s)
  else mapIntervalTimer id (n - 1) s

/-- One firing of the reset-ball watchdog: the scheduler removes the fired
timer, then its callback `resetTimeoutEnded` runs. -/
def fireReset (id : ℕ) (s : SceneState) : SceneState :=
  resetTimeoutEnded (removeTimer id s)

/-- The `TweenMax.to(this, 0.5, {ease: Power0.easeNone,
ballInterpolationAlpha: 0})` tween started by `onReceivedHit`
(`scene.js` lines 749–752): `dt` milliseconds of tween playback move
`ballInterpolationAlpha` linearly toward 0 at slope 1/500 per ms and the
tween stops at 0.  Nothing else changes — in particular the tween has no
completion callback. -/
def interpStep (dt : ℚ) (s : SceneState) : SceneState :=
  { s with ballInterpolationAlpha := max 0 (s.ballInterpolationAlpha - dt / 500) }

/-- `updateBall` (`scene.js` lines 1024–1042): the rendered ball position
as a function of the simulated position, the stored position difference
and the interpolation alpha. -/
def updateBallVisual (physPos : Vec3) (diff : Option Vec3) (alpha : ℚ) : Vec3 :=
  match diff with
  | some d => lerpVec physPos (vadd physPos d) alpha
  | none => physPos

/-- The scene right after construction (`scene.js` lines 50–161) and mode
selection (`setSingleplayer` / `setMultiplayer`): menu state, zero score,
`startLives` lives, no flags set, no ball, no pending timers. -/
def initState (m : Mode) (host : Bool) (startLives pointsForWin : ℤ)
    (tablePositionZ : ℚ) : SceneState :=
  { mode := m
    gstate := GState.menu
    isHost := host
    score := { self := 0, opponent := 0, lives := startLives, highest := 0 }
    startLives := startLives
    pointsForWin := pointsForWin
    tablePositionZ := tablePositionZ
    playerRequestedRestart := false
    opponentRequestedRestart := false
    playerRequestedCountdown := false
    opponentRequestedCountdown := false
    ballHasHitEnemyTable := false
    ballExists := false
    resetBallTimeout := none
    pending := []
    nextId := 0
    ballPos := ⟨0, 0, 0⟩
    ballVel := ⟨0, 0, 0⟩
    ballPositionDifference := none
    ballInterpolationAlpha := 0 }

/-- `slowdownBall` (`scene.js` lines 800–813): the send-side latency
compensation run on a local hit in multiplayer.  When the ball moves
toward the local player (`velocity.z > 0`) nothing happens; otherwise the
physics time-step divisor becomes
`1000 * ((eta + latency/1000) / eta) * 1` with `eta = dist / speed`, where
`dist` is the distance from the visual ball to the opponent paddle and
`speed` is `|velocity|`.  Because square roots do not exist in ℚ, `dist`
and `speed` are parameters; the claim theorems constrain them by their
squares (`normSq`). -/
def slowdownBall (vz dist speed latency oldStep : ℚ) : ℚ :=
  if 0 < vz then oldStep
  else
    let eta := dist / speed
    let desirableEta := eta + latency / 1000
    1000 * (desirableEta / eta) * 1

/-- Table-geometry configuration read by `computePaddlePosition`
(fields of `INITIAL_CONFIG`). -/
structure PaddleConfig where
  tableWidth : ℚ
  tableHeight : ℚ
  tableDepth : ℚ
  tablePositionZ : ℚ
deriving DecidableEq, Repr

/-- One frame's input to `computePaddlePosition` (`scene.js`
lines 957–1014), one constructor per input source.  The raycast against
the invisible table plane is geometry performed by `three.js`; its result
(the intersection point, or none when the ray misses the plane) is the
input datum. -/
inductive PaddleInput where
  /-- VR with a tracked controller: result of the controller-forward
  raycast against the table plane. -/
  | vrController (hit : Option Vec3)
  /-- VR without a controller (gaze mode): result of the gaze raycast; the
  source scales the intersection's x by 1.5 before using it. -/
  | vrGaze (hit : Option Vec3)
  /-- Desktop with pointer lock: accumulated mouse movement deltas since
  the last frame. -/
  | mouseLocked (dx dy : ℚ)
  /-- Desktop without pointer lock: normalized viewport-relative mouse
  position, each coordinate in [-0.5, 0.5]. -/
  | mouseFree (mx my : ℚ)
deriving DecidableEq, Repr

/-- `computePaddlePosition` (`scene.js` lines 957–1014).  `ghost` is
`this.ghostPaddlePosition`, `paddlePos` is `this.paddle.position` (the
fallback returned when the VR ray misses the plane, line 1013).  When a
candidate position exists its x is clamped to `[-tableWidth, tableWidth]`
and its z to `[0, tablePositionZ + 0.5]`; a candidate y of 0 (the only JS
falsy number) falls back to a position-derived height. -/
def computePaddlePosition (cfg : PaddleConfig) (ghost paddlePos : Vec3)
    (input : PaddleInput) : Vec3 :=
  let cand : Option Vec3 :=
    match input with
    | .vrController hit => hit
    | .vrGaze hit => hit.map fun p => ⟨p.x * (3 / 2), p.y, p.z⟩
    | .mouseLocked dx dy =>
        some ⟨ghost.x + (15 / 10000) * dx, cfg.tableHeight + 24 / 100,
              ghost.z + (15 / 10000) * dy⟩
    | .mouseFree mx my =>
        some ⟨(14 / 10) * mx * cfg.tableWidth, cfg.tableHeight + 24 / 100,
              -cfg.tableDepth * (1 / 2) * (my + 1 / 2)⟩
  match cand with
  | some p =>
      let x := cap p.x cfg.tableWidth (-cfg.tableWidth)
      let z := cap p.z (cfg.tablePositionZ + 1 / 2) 0
      let y := if p.y = 0 then cfg.tableHeight + 1 / 10 - z * (2 / 10) else p.y
      ⟨x, y, z⟩
  | none => paddlePos

/-- The externally triggered events the scene reacts to: local collisions,
network message receipts, the restart button, timer firings, tween
playback, and the game start.  Payload-carrying receives model the network
channel, which per the spec (§6, §9) is an external collaborator with no
specified duplicate/ordering guarantees, so a receive event may occur in
any multiplayer state in which the callbacks are registered. -/
inductive Ev where
  | paddleHit
  | recvHit (point vel : Vec3)
  | recvMiss (point vel : Vec3) (fault isInit : Bool)
  | recvRestart
  | recvReqCountdown
  | pressRestart
  | fireResetEv (id : ℕ)
  | fireIntervalEv (id : ℕ) (n : ℤ)
  | interp (dt : ℚ)
  | start
deriving DecidableEq, Repr

/-- The state transition performed by each event. -/
def applyEv : Ev → SceneState → SceneState
  | .paddleHit => onBallPaddleCollision
  | .recvHit p v => onReceivedHit p v false
  | .recvMiss p v f i => onReceivedMiss p v f i
  | .recvRestart => onReceivedRestartGame
  | .recvReqCountdown => onReceivedRequestCountdown
  | .pressRestart => onRestartButtonPressed
  | .fireResetEv id => fireReset id
  | .fireIntervalEv id n => fireInterval id n
  | .interp dt => interpStep dt
  | .start => startGame

/-- When an event can occur.  A paddle collision needs a ball (`animate`,
line 1108); message receipts need the multiplayer callbacks registered
(`setMultiplayer`); the restart button exists on the game-over screen; a
timer can fire only while it is pending; tween playback moves forward in
time; the game is started from the menu. -/
@[reducible] def enabledEv : Ev → SceneState → Prop
  | .paddleHit => fun s => s.ballExists = true
  | .recvHit _ _ => fun s => s.mode = Mode.multiplayer
  | .recvMiss _ _ _ _ => fun s => s.mode = Mode.multiplayer
  | .recvRestart => fun s => s.mode = Mode.multiplayer
  | .recvReqCountdown => fun s => s.mode = Mode.multiplayer
  | .pressRestart => fun s => s.gstate = GState.gameOver
  | .fireResetEv id => fun s => (id, TimerKind.reset) ∈ s.pending
  | .fireIntervalEv id n => fun s => (id, TimerKind.interval n) ∈ s.pending
  | .interp dt => fun _ => 0 ≤ dt
  | .start => fun s => s.gstate = GState.menu

/-- One step of the scene: some enabled event happens. -/
def SceneStep (s s' : SceneState) : Prop :=
  ∃ e, enabledEv e s ∧ s' = applyEv e s

/-- Reachability from a given start state through scene steps. -/
def Reach (s0 s : SceneState) : Prop :=
  Relation.ReflTransGen SceneStep s0 s

/-- Whether handling this event runs `addBall` (re-adding the ball entity):
`onReceivedHit` adds one when none exists (line 734); an init miss always
adds one (line 779) and a non-init miss below the winning threshold adds
one when none exists (via `onReceivedHit(data, true)`); the end of the
countdown adds one in singleplayer and for the non-host (lines 604, 608). -/
def runsAddBall : Ev → SceneState → Bool
  | .recvHit _ _, s => !s.ballExists
  | .recvMiss _ _ fault isInit, s =>
      if isInit then true
      else
        let selfAfter := if fault then s.score.self else s.score.self + 1
        let oppAfter := if fault then s.score.opponent + 1 else s.score.opponent
        if s.pointsForWin ≤ selfAfter ∨ s.pointsForWin ≤ oppAfter then false
        else !s.ballExists
  | .fireIntervalEv _ n, s =>
      decide (n - 1 < 0) && (decide (s.mode = Mode.singleplayer) || !s.isHost)
  | _, _ => false

/-- A sequence of enabled events none of which re-adds the ball. -/
inductive QuietPath : SceneState → List Ev → SceneState → Prop where
  | nil (s : SceneState) : QuietPath s [] s
  | cons {s s' : SceneState} {e : Ev} {es : List Ev}
      (henabled : enabledEv e s) (hquiet : runsAddBall e s = false)
      (htail : QuietPath (applyEv e s) es s') : QuietPath s (e :: es) s'

/-- Number of pending reset-ball timers. -/
def countReset (l : List (ℕ × TimerKind)) : ℕ :=
  (l.filter fun t => isReset t.2).length

/-- Number of pending countdown intervals. -/
def countInterval (l : List (ℕ × TimerKind)) : ℕ :=
  (l.filter fun t => !isReset t.2).length

/-! ### Timer bookkeeping invariant

`Inv` states that every pending timer's handle is below the scheduler's
fresh-handle counter, handles are pairwise distinct, and every pending
reset-ball timer's handle is the one stored in `this.resetBallTimeout`.
From this, at most one reset-ball timer is ever pending. -/

/-- The scheduler/handle bookkeeping invariant of the scene. -/
def Inv (s : SceneState) : Prop :=
  (∀ t ∈ s.pending, t.1 < s.nextId) ∧
  (s.pending.map Prod.fst).Nodup ∧
  (∀ t ∈ s.pending, isReset t.2 = true → s.resetBallTimeout = some t.1)

/-- No reset-ball timer is pending. -/
def NoReset (s : SceneState) : Prop := countReset s.pending = 0

/-- After the game is over no reset-ball timer is pending. -/
def KInv (s : SceneState) : Prop := s.gstate = GState.gameOver → NoReset s

@[simp] lemma removeTimer_gstate (i : ℕ) (s : SceneState) :
    (removeTimer i s).gstate = s.gstate := rfl

@[simp] lemma removeTimer_mode (i : ℕ) (s : SceneState) :
    (removeTimer i s).mode = s.mode := rfl

@[simp] lemma removeTimer_score (i : ℕ) (s : SceneState) :
    (removeTimer i s).score = s.score := rfl

@[simp] lemma removeTimer_nextId (i : ℕ) (s : SceneState) :
    (removeTimer i s).nextId = s.nextId := rfl

@[simp] lemma removeTimer_handle (i : ℕ) (s : SceneState) :
    (removeTimer i s).resetBallTimeout = s.resetBallTimeout := rfl

@[simp] lemma clearT_gstate (h : Option ℕ) (s : SceneState) :
    (clearT h s).gstate = s.gstate := by cases h <;> rfl

@[simp] lemma clearT_mode (h : Option ℕ) (s : SceneState) :
    (clearT h s).mode = s.mode := by cases h <;> rfl

@[simp] lemma clearT_score (h : Option ℕ) (s : SceneState) :
    (clearT h s).score = s.score := by cases h <;> rfl

@[simp] lemma clearT_nextId (h : Option ℕ) (s : SceneState) :
    (clearT h s).nextId = s.nextId := by cases h <;> rfl

@[simp] lemma clearT_handle (h : Option ℕ) (s : SceneState) :
    (clearT h s).resetBallTimeout = s.resetBallTimeout := by cases h <;> rfl

@[simp] lemma clearT_ballExists (h : Option ℕ) (s : SceneState) :
    (clearT h s).ballExists = s.ballExists := by cases h <;> rfl

@[simp] lemma clearT_tablePositionZ (h : Option ℕ) (s : SceneState) :
    (clearT h s).tablePositionZ = s.tablePositionZ := by cases h <;> rfl

@[simp] lemma clearT_ballPos (h : Option ℕ) (s : SceneState) :
    (clearT h s).ballPos = s.ballPos := by cases h <;> rfl

@[simp] lemma clearT_pointsForWin (h : Option ℕ) (s : SceneState) :
    (clearT h s).pointsForWin = s.pointsForWin := by cases h <;> rfl

@[simp] lemma scheduleReset_gstate (s : SceneState) :
    (scheduleReset s).gstate = s.gstate := rfl

@[simp] lemma scheduleReset_mode (s : SceneState) :
    (scheduleReset s).mode = s.mode := rfl

@[simp] lemma scheduleReset_score (s : SceneState) :
    (scheduleReset s).score = s.score := rfl

@[simp] lemma restartPingpongTimeout_gstate (s : SceneState) :
    (restartPingpongTimeout s).gstate = s.gstate := by
  unfold restartPingpongTimeout
  dsimp only
  split <;> simp

@[simp] lemma restartPingpongTimeout_mode (s : SceneState) :
    (restartPingpongTimeout s).mode = s.mode := by
  unfold restartPingpongTimeout
  dsimp only
  split <;> simp

@[simp] lemma restartPingpongTimeout_score (s : SceneState) :
    (restartPingpongTimeout s).score = s.score := by
  unfold restartPingpongTimeout
  dsimp only
  split <;> simp

@[simp] lemma onGameOver_gstate (s : SceneState) :
    (onGameOver s).gstate = GState.gameOver := by
  unfold onGameOver
  simp

@[simp] lemma onGameOver_score (s : SceneState) :
    (onGameOver s).score = s.score := by
  unfold onGameOver
  simp

@[simp] lemma onGameOver_mode (s : SceneState) :
    (onGameOver s).mode = s.mode := by
  unfold onGameOver
  simp

@[simp] lemma initBallPosition_gstate (s : SceneState) :
    (initBallPosition s).gstate = s.gstate := rfl

@[simp] lemma initBallPosition_score (s : SceneState) :
    (initBallPosition s).score = s.score := rfl

@[simp] lemma initBallPosition_pending (s : SceneState) :
    (initBallPosition s).pending = s.pending := rfl

@[simp] lemma addBall_gstate (s : SceneState) :
    (addBall s).gstate = GState.playing := by
  unfold addBall
  dsimp only
  split <;> simp

@[simp] lemma addBall_score (s : SceneState) :
    (addBall s).score = s.score := by
  unfold addBall
  dsimp only
  split <;> simp

@[simp] lemma countdown_gstate (s : SceneState) :
    (countdown s).gstate = GState.countdown := rfl

@[simp] lemma countdown_score (s : SceneState) :
    (countdown s).score = s.score := rfl

@[simp] lemma scheduleInterval_handle (n : ℤ) (s : SceneState) :
    (scheduleInterval n s).resetBallTimeout = s.resetBallTimeout := rfl

/-- A list with no pending reset timer has `countReset` zero, and
conversely. -/
lemma noReset_iff (l : List (ℕ × TimerKind)) :
    countReset l = 0 ↔ ∀ t ∈ l, isReset t.2 = false := by
  unfold countReset
  rw [List.length_eq_zero, List.filter_eq_nil_iff]
  constructor
  · intro h t ht
    have := h t ht
    simpa using this
  · intro h t ht
    simp [h t ht]

/-- The invariant bounds the number of pending reset timers by one. -/
lemma countReset_le_one {s : SceneState} (h : Inv s) : countReset s.pending ≤ 1 := by
  obtain ⟨-, hnd, hhandle⟩ := h
  unfold countReset
  cases hl : s.pending.filter fun t => isReset t.2 with
  | nil => simp
  | cons a tail =>
    cases tail with
    | nil => simp
    | cons b rest =>
      exfalso
      have hsub : (a :: b :: rest).Sublist s.pending := hl ▸ List.filter_sublist _
      have hndl : ((a :: b :: rest).map Prod.fst).Nodup :=
        List.Nodup.sublist (List.Sublist.map _ hsub) hnd
      have hamem : a ∈ s.pending.filter fun t => isReset t.2 := by
        rw [hl]; exact List.mem_cons_self _ _
      have hbmem : b ∈ s.pending.filter fun t => isReset t.2 := by
        rw [hl]; exact List.mem_cons_of_mem _ (List.mem_cons_self _ _)
      have ha := List.mem_filter.mp hamem
      have hb := List.mem_filter.mp hbmem
      have h1 := hhandle a ha.1 ha.2
      have h2 := hhandle b hb.1 hb.2
      rw [h1] at h2
      have hab : a.1 = b.1 := by
        injection h2
      simp only [List.map_cons, List.nodup_cons, List.mem_cons] at hndl
      exact hndl.1 (Or.inl hab)

lemma Inv_removeTimer {s : SceneState} (h : Inv s) (i : ℕ) : Inv (removeTimer i s) := by
  obtain ⟨hlt, hnd, hhandle⟩ := h
  refine ⟨?_, ?_, ?_⟩
  · intro t ht
    exact hlt t (List.mem_filter.mp ht).1
  · exact List.Nodup.sublist (List.Sublist.map _ (List.filter_sublist _)) hnd
  · intro t ht
    exact hhandle t (List.mem_filter.mp ht).1

lemma Inv_clearT {s : SceneState} (h : Inv s) (ho : Option ℕ) : Inv (clearT ho s) := by
  cases ho with
  | none => exact h
  | some i => exact Inv_removeTimer h i

/-- Clearing the stored handle cancels every pending reset timer: under
the invariant all pending reset timers carry exactly that handle. -/
lemma noReset_clearT_handle {s : SceneState} (h : Inv s) :
    NoReset (clearT s.resetBallTimeout s) := by
  obtain ⟨-, -, hhandle⟩ := h
  unfold NoReset
  cases hh : s.resetBallTimeout with
  | none =>
      simp only [clearT]
      rw [noReset_iff]
      intro t ht
      by_contra hcontra
      have := hhandle t ht (by simpa using hcontra)
      rw [hh] at this
      exact Option.noConfusion this
  | some i =>
      simp only [clearT, removeTimer]
      rw [noReset_iff]
      intro t ht
      obtain ⟨htmem, htne⟩ := List.mem_filter.mp ht
      by_contra hcontra
      have := hhandle t htmem (by simpa using hcontra)
      rw [hh] at this
      have : t.1 = i := by simpa using this.symm
      simp [this] at htne

lemma Inv_scheduleReset {s : SceneState} (h : Inv s) (h0 : NoReset s) :
    Inv (scheduleReset s) := by
  obtain ⟨hlt, hnd, -⟩ := h
  have hnone : ∀ t ∈ s.pending, isReset t.2 = false := (noReset_iff _).mp h0
  refine ⟨?_, ?_, ?_⟩
  · intro t ht
    rcases List.mem_cons.mp ht with heq | hmem
    · subst heq; exact Nat.lt_succ_self _
    · exact Nat.lt_succ_of_lt (hlt t hmem)
  · refine List.nodup_cons.mpr ⟨?_, hnd⟩
    intro hmem
    obtain ⟨t, htmem, hteq⟩ := List.mem_map.mp hmem
    exact absurd (hteq ▸ hlt t htmem) (lt_irrefl _)
  · intro t ht hres
    rcases List.mem_cons.mp ht with heq | hmem
    · subst heq; rfl
    · exact absurd hres (by simp [hnone t hmem])

lemma Inv_scheduleInterval {s : SceneState} (h : Inv s) (n : ℤ) :
    Inv (scheduleInterval n s) := by
  obtain ⟨hlt, hnd, hhandle⟩ := h
  refine ⟨?_, ?_, ?_⟩
  · intro t ht
    rcases List.mem_cons.mp ht with heq | hmem
    · subst heq; exact Nat.lt_succ_self _
    · exact Nat.lt_succ_of_lt (hlt t hmem)
  · refine List.nodup_cons.mpr ⟨?_, hnd⟩
    intro hmem
    obtain ⟨t, htmem, hteq⟩ := List.mem_map.mp hmem
    exact absurd (hteq ▸ hlt t htmem) (lt_irrefl _)
  · intro t ht hres
    rcases List.mem_cons.mp ht with heq | hmem
    · subst heq; exact absurd hres (by simp [isReset])
    · exact hhandle t hmem hres

lemma Inv_restartPingpongTimeout {s : SceneState} (h : Inv s) :
    Inv (restartPingpongTimeout s) := by
  unfold restartPingpongTimeout
  dsimp only
  have h1 : Inv (clearT s.resetBallTimeout s) := Inv_clearT h _
  split
  · exact h1
  · exact Inv_scheduleReset h1 (noReset_clearT_handle h)

/-- `restartPingpongTimeout` reestablishes after-game-over reset-timer
cleanliness on its own. -/
lemma KInv_restartPingpongTimeout {s : SceneState} (h : Inv s) :
    KInv (restartPingpongTimeout s) := by
  intro hg
  rw [restartPingpongTimeout_gstate] at hg
  unfold restartPingpongTimeout
  have hg1 : (clearT s.resetBallTimeout s).gstate = GState.gameOver := by simp [hg]
  rw [if_pos hg1]
  exact noReset_clearT_handle h

lemma Inv_onGameOver {s : SceneState} (h : Inv s) : Inv (onGameOver s) := by
  unfold onGameOver
  exact Inv_clearT (s := { s with gstate := GState.gameOver }) h _

lemma NoReset_onGameOver {s : SceneState} (h : Inv s) : NoReset (onGameOver s) := by
  unfold onGameOver
  exact noReset_clearT_handle (s := { s with gstate := GState.gameOver }) h

lemma Inv_initBallPosition {s : SceneState} (h : Inv s) : Inv (initBallPosition s) := h

lemma Inv_addBall {s : SceneState} (h : Inv s) : Inv (addBall s) := by
  unfold addBall
  dsimp only
  split
  · exact Inv_restartPingpongTimeout h
  · exact Inv_restartPingpongTimeout h

lemma KInv_addBall (s : SceneState) : KInv (addBall s) := by
  intro hg
  rw [addBall_gstate] at hg
  exact absurd hg (by simp)

lemma Inv_resetScore {s : SceneState} (h : Inv s) : Inv (resetScore s) := h

lemma Inv_countdown {s : SceneState} (h : Inv s) : Inv (countdown s) :=
  Inv_scheduleInterval h 2

lemma KInv_countdown (s : SceneState) : KInv (countdown s) := by
  intro hg
  rw [countdown_gstate] at hg
  exact absurd hg (by simp)

/-- `Inv` only depends on the timer bookkeeping fields. -/
lemma Inv_congr {s s' : SceneState} (h : Inv s) (hp : s'.pending = s.pending)
    (hn : s'.nextId = s.nextId) (hh : s'.resetBallTimeout = s.resetBallTimeout) :
    Inv s' := by
  rw [Inv, hp, hn, hh]
  exact h

/-- `KInv` only depends on the game state and the pending timers. -/
lemma KInv_congr {s s' : SceneState} (h : KInv s) (hg : s'.gstate = s.gstate)
    (hp : s'.pending = s.pending) : KInv s' := by
  intro hgo
  rw [hg] at hgo
  rw [NoReset, hp]
  exact h hgo

lemma NoReset_removeTimer {s : SceneState} (h : NoReset s) (i : ℕ) :
    NoReset (removeTimer i s) := by
  rw [NoReset, noReset_iff] at h ⊢
  intro t ht
  exact h t (List.mem_filter.mp ht).1

lemma Inv_mapInterval {s : SceneState} (h : Inv s) (id : ℕ) (n : ℤ) :
    Inv (mapIntervalTimer id n s) := by
  unfold mapIntervalTimer
  obtain ⟨hlt, hnd, hhandle⟩ := h
  have hfst : ∀ t : ℕ × TimerKind,
      (if t.1 = id then ((id : ℕ), TimerKind.interval n) else t).1 = t.1 := by
    intro t
    split
    · simp_all
    · rfl
  refine ⟨?_, ?_, ?_⟩
  · intro t ht
    obtain ⟨u, hu, huq⟩ := List.mem_map.mp ht
    rw [← huq, hfst u]
    exact hlt u hu
  · have hmaps : (s.pending.map fun t =>
        if t.1 = id then ((id : ℕ), TimerKind.interval n) else t).map Prod.fst
        = s.pending.map Prod.fst := by
      rw [List.map_map]
      exact List.map_congr_left fun t _ => hfst t
    show ((s.pending.map fun t =>
      if t.1 = id then ((id : ℕ), TimerKind.interval n) else t).map Prod.fst).Nodup
    rw [hmaps]
    exact hnd
  · intro t ht hres
    obtain ⟨u, hu, huq⟩ := List.mem_map.mp ht
    by_cases hcase : u.1 = id
    · rw [← huq, if_pos hcase] at hres
      exact absurd hres (by simp [isReset])
    · rw [← huq, if_neg hcase] at hres ⊢
      exact hhandle u hu hres

lemma NoReset_mapInterval {s : SceneState} (h : NoReset s) (id : ℕ) (n : ℤ) :
    NoReset (mapIntervalTimer id n s) := by
  unfold mapIntervalTimer
  rw [NoReset, noReset_iff] at h ⊢
  intro t ht
  obtain ⟨u, hu, huq⟩ := List.mem_map.mp ht
  by_cases hcase : u.1 = id
  · rw [← huq, if_pos hcase]
    simp [isReset]
  · rw [← huq, if_neg hcase]
    exact h u hu

lemma Inv_requestCountdown {s : SceneState} (h : Inv s) : Inv (requestCountdown s) := by
  unfold requestCountdown
  split
  · exact Inv_countdown h
  · exact h

lemma KInv_requestCountdown {s : SceneState} (hk : KInv s) : KInv (requestCountdown s) := by
  unfold requestCountdown
  split
  · exact KInv_countdown _
  · exact hk

lemma Inv_restartGame {s : SceneState} (h : Inv s) : Inv (restartGame s) := by
  unfold restartGame
  dsimp only
  split
  · exact Inv_countdown h
  · split
    · exact Inv_countdown h
    · exact h

lemma KInv_restartGame {s : SceneState} (hk : KInv s) : KInv (restartGame s) := by
  unfold restartGame
  dsimp only
  split
  · exact KInv_countdown _
  · split
    · exact KInv_countdown _
    · exact KInv_congr hk rfl rfl

lemma Inv_onRestartButtonPressed {s : SceneState} (h : Inv s) :
    Inv (onRestartButtonPressed s) := by
  unfold onRestartButtonPressed
  split
  · exact Inv_restartGame h
  · exact Inv_restartGame h

lemma KInv_onRestartButtonPressed {s : SceneState} (hk : KInv s) :
    KInv (onRestartButtonPressed s) := by
  unfold onRestartButtonPressed
  split
  · exact KInv_restartGame (KInv_congr hk rfl rfl)
  · exact KInv_restartGame hk

lemma Inv_onReceivedRestartGame {s : SceneState} (h : Inv s) :
    Inv (onReceivedRestartGame s) := Inv_restartGame h

lemma KInv_onReceivedRestartGame {s : SceneState} (hk : KInv s) :
    KInv (onReceivedRestartGame s) := KInv_restartGame (KInv_congr hk rfl rfl)

lemma Inv_onReceivedRequestCountdown {s : SceneState} (h : Inv s) :
    Inv (onReceivedRequestCountdown s) := Inv_requestCountdown h

lemma KInv_onReceivedRequestCountdown {s : SceneState} (hk : KInv s) :
    KInv (onReceivedRequestCountdown s) := KInv_requestCountdown (KInv_congr hk rfl rfl)

lemma Inv_startGame {s : SceneState} (h : Inv s) : Inv (startGame s) := by
  unfold startGame
  split
  · exact Inv_requestCountdown h
  · exact Inv_countdown h

lemma KInv_startGame {s : SceneState} (hk : KInv s) : KInv (startGame s) := by
  unfold startGame
  split
  · exact KInv_requestCountdown (KInv_congr hk rfl rfl)
  · exact KInv_countdown _

lemma Inv_onBallPaddleCollision {s : SceneState} (h : Inv s) :
    Inv (onBallPaddleCollision s) := by
  unfold onBallPaddleCollision
  dsimp only
  have h1 : Inv (restartPingpongTimeout { s with ballPositionDifference := none }) :=
    Inv_restartPingpongTimeout (Inv_congr h rfl rfl rfl)
  split
  · exact Inv_congr h1 rfl rfl rfl
  · exact Inv_congr h1 rfl rfl rfl

lemma KInv_onBallPaddleCollision {s : SceneState} (h : Inv s) :
    KInv (onBallPaddleCollision s) := by
  unfold onBallPaddleCollision
  dsimp only
  have hmain : KInv (restartPingpongTimeout { s with ballPositionDifference := none }) :=
    KInv_restartPingpongTimeout (s := { s with ballPositionDifference := none }) h
  split
  · exact KInv_congr hmain rfl rfl
  · exact KInv_congr hmain rfl rfl

lemma Inv_onReceivedHit {s : SceneState} (h : Inv s) (p v : Vec3) (wm : Bool) :
    Inv (onReceivedHit p v wm s) := by
  unfold onReceivedHit
  dsimp only
  have h1 : Inv (clearT s.resetBallTimeout s) := Inv_clearT h _
  split <;> (try split) <;>
    first
      | exact Inv_congr h1 rfl rfl rfl
      | exact Inv_congr (Inv_addBall h1) rfl rfl rfl

lemma KInv_onReceivedHit {s : SceneState} (h : Inv s) (p v : Vec3) (wm : Bool) :
    KInv (onReceivedHit p v wm s) := by
  unfold onReceivedHit
  dsimp only
  have hk1 : KInv (clearT s.resetBallTimeout s) := fun _ => noReset_clearT_handle h
  split <;> (try split) <;>
    first
      | exact KInv_congr hk1 rfl rfl
      | exact KInv_congr (KInv_addBall (clearT s.resetBallTimeout s)) rfl rfl

lemma Inv_onReceivedMiss {s : SceneState} (h : Inv s) (p v : Vec3) (fault isInit : Bool) :
    Inv (onReceivedMiss p v fault isInit s) := by
  unfold onReceivedMiss
  dsimp only
  have h1 : Inv (clearT s.resetBallTimeout { s with ballPositionDifference := none }) := by
    have := Inv_clearT (s := { s with ballPositionDifference := none }) h s.resetBallTimeout
    exact Inv_congr this rfl rfl rfl
  have h2 : ∀ s2 : SceneState, Inv s2 →
      Inv (if s2.pointsForWin ≤ s2.score.self ∨ s2.pointsForWin ≤ s2.score.opponent then
        onGameOver s2
      else { (onReceivedHit p v true s2) with gstate := GState.playing }) := by
    intro s2 hs2
    split
    · exact Inv_onGameOver hs2
    · exact Inv_congr (Inv_onReceivedHit hs2 p v true) rfl rfl rfl
  refine h2 _ ?_
  split
  · exact Inv_addBall h1
  · split
    · exact Inv_congr h1 rfl rfl rfl
    · exact Inv_congr h1 rfl rfl rfl

lemma KInv_onReceivedMiss {s : SceneState} (h : Inv s) (p v : Vec3) (fault isInit : Bool) :
    KInv (onReceivedMiss p v fault isInit s) := by
  unfold onReceivedMiss
  dsimp only
  have h1 : Inv (clearT s.resetBallTimeout { s with ballPositionDifference := none }) := by
    have := Inv_clearT (s := { s with ballPositionDifference := none }) h s.resetBallTimeout
    exact Inv_congr this rfl rfl rfl
  have h2 : ∀ s2 : SceneState, Inv s2 →
      KInv (if s2.pointsForWin ≤ s2.score.self ∨ s2.pointsForWin ≤ s2.score.opponent then
        onGameOver s2
      else { (onReceivedHit p v true s2) with gstate := GState.playing }) := by
    intro s2 hs2
    split
    · exact fun _ => NoReset_onGameOver hs2
    · exact fun hgo => absurd hgo (by simp)
  refine h2 _ ?_
  split
  · exact Inv_addBall h1
  · split
    · exact Inv_congr h1 rfl rfl rfl
    · exact Inv_congr h1 rfl rfl rfl

lemma Inv_resetTimeoutEnded {s : SceneState} (h : Inv s) : Inv (resetTimeoutEnded s) := by
  unfold resetTimeoutEnded
  dsimp only
  split <;> (try split) <;> (try split) <;>
    first
      | exact Inv_restartPingpongTimeout (Inv_onGameOver h)
      | exact Inv_restartPingpongTimeout h

lemma KInv_resetTimeoutEnded {s : SceneState} (h : Inv s) : KInv (resetTimeoutEnded s) := by
  unfold resetTimeoutEnded
  dsimp only
  split <;> (try split) <;> (try split) <;>
    first
      | exact KInv_restartPingpongTimeout (Inv_onGameOver h)
      | exact KInv_restartPingpongTimeout h

lemma Inv_fireReset {s : SceneState} (h : Inv s) (id : ℕ) : Inv (fireReset id s) :=
  Inv_resetTimeoutEnded (Inv_removeTimer h id)

lemma KInv_fireReset {s : SceneState} (h : Inv s) (id : ℕ) : KInv (fireReset id s) :=
  KInv_resetTimeoutEnded (Inv_removeTimer h id)

lemma Inv_intervalEnd {s : SceneState} (h : Inv s) : Inv (intervalEnd s) := by
  unfold intervalEnd
  split
  · exact Inv_congr (Inv_addBall h) rfl rfl rfl
  · split
    · exact Inv_addBall h
    · exact h

lemma KInv_intervalEnd {s : SceneState} (_hi : Inv s) (hk : KInv s) :
    KInv (intervalEnd s) := by
  unfold intervalEnd
  split
  · exact KInv_congr (KInv_addBall s) rfl rfl
  · split
    · exact KInv_addBall s
    · exact hk

lemma Inv_fireInterval {s : SceneState} (h : Inv s) (id : ℕ) (n : ℤ) :
    Inv (fireInterval id n s) := by
  unfold fireInterval
  split
  · exact Inv_intervalEnd (Inv_removeTimer h id)
  · exact Inv_mapInterval h id (n - 1)

lemma KInv_fireInterval {s : SceneState} (hi : Inv s) (hk : KInv s) (id : ℕ) (n : ℤ) :
    KInv (fireInterval id n s) := by
  unfold fireInterval
  split
  · exact KInv_intervalEnd (Inv_removeTimer hi id)
      (fun hg => NoReset_removeTimer (hk hg) id)
  · intro hg
    exact NoReset_mapInterval (hk hg) id (n - 1)

lemma Inv_interpStep {s : SceneState} (h : Inv s) (dt : ℚ) : Inv (interpStep dt s) := h

lemma KInv_interpStep {s : SceneState} (hk : KInv s) (dt : ℚ) : KInv (interpStep dt s) :=
  KInv_congr hk rfl rfl

/-- The combined timer invariant preserved by every scene step. -/
def GoodState (s : SceneState) : Prop := Inv s ∧ KInv s

lemma goodState_step {s s' : SceneState} (h : GoodState s) (hs : SceneStep s s') :
    GoodState s' := by
  obtain ⟨hi, hk⟩ := h
  obtain ⟨e, -, rfl⟩ := hs
  cases e with
  | paddleHit => exact ⟨Inv_onBallPaddleCollision hi, KInv_onBallPaddleCollision hi⟩
  | recvHit p v => exact ⟨Inv_onReceivedHit hi p v false, KInv_onReceivedHit hi p v false⟩
  | recvMiss p v f i => exact ⟨Inv_onReceivedMiss hi p v f i, KInv_onReceivedMiss hi p v f i⟩
  | recvRestart => exact ⟨Inv_onReceivedRestartGame hi, KInv_onReceivedRestartGame hk⟩
  | recvReqCountdown =>
      exact ⟨Inv_onReceivedRequestCountdown hi, KInv_onReceivedRequestCountdown hk⟩
  | pressRestart => exact ⟨Inv_onRestartButtonPressed hi, KInv_onRestartButtonPressed hk⟩
  | fireResetEv id => exact ⟨Inv_fireReset hi id, KInv_fireReset hi id⟩
  | fireIntervalEv id n => exact ⟨Inv_fireInterval hi id n, KInv_fireInterval hi hk id n⟩
  | interp dt => exact ⟨Inv_interpStep hi dt, KInv_interpStep hk dt⟩
  | start => exact ⟨Inv_startGame hi, KInv_startGame hk⟩

lemma goodState_initState (m : Mode) (host : Bool) (sl pw : ℤ) (z0 : ℚ) :
    GoodState (initState m host sl pw z0) := by
  refine ⟨⟨?_, ?_, ?_⟩, ?_⟩
  · intro t ht
    exact absurd ht (List.not_mem_nil t)
  · exact List.nodup_nil
  · intro t ht
    exact absurd ht (List.not_mem_nil t)
  · intro hg
    exact absurd hg (by simp [initState])

/-- Every state reachable from a freshly constructed scene satisfies the
timer invariant. -/
theorem goodState_reachable {m : Mode} {host : Bool} {sl pw : ℤ} {z0 : ℚ}
    {s : SceneState} (h : Reach (initState m host sl pw z0) s) : GoodState s := by
  induction h with
  | refl => exact goodState_initState m host sl pw z0
  | tail _ hstep ih => exact goodState_step ih hstep

/-! ### Further projection lemmas used by the claim theorems -/

@[simp] lemma clearT_diff (h : Option ℕ) (s : SceneState) :
    (clearT h s).ballPositionDifference = s.ballPositionDifference := by
  cases h <;> rfl

@[simp] lemma clearT_alpha (h : Option ℕ) (s : SceneState) :
    (clearT h s).ballInterpolationAlpha = s.ballInterpolationAlpha := by
  cases h <;> rfl

@[simp] lemma scheduleReset_diff (s : SceneState) :
    (scheduleReset s).ballPositionDifference = s.ballPositionDifference := rfl

@[simp] lemma scheduleReset_tablePositionZ (s : SceneState) :
    (scheduleReset s).tablePositionZ = s.tablePositionZ := rfl

@[simp] lemma scheduleReset_alpha (s : SceneState) :
    (scheduleReset s).ballInterpolationAlpha = s.ballInterpolationAlpha := rfl

@[simp] lemma scheduleReset_ballExists (s : SceneState) :
    (scheduleReset s).ballExists = s.ballExists := rfl

@[simp] lemma restartPingpongTimeout_diff (s : SceneState) :
    (restartPingpongTimeout s).ballPositionDifference = s.ballPositionDifference := by
  unfold restartPingpongTimeout
  dsimp only
  split <;> simp

@[simp] lemma restartPingpongTimeout_tablePositionZ (s : SceneState) :
    (restartPingpongTimeout s).tablePositionZ = s.tablePositionZ := by
  unfold restartPingpongTimeout
  dsimp only
  split <;> simp

@[simp] lemma onGameOver_diff (s : SceneState) :
    (onGameOver s).ballPositionDifference = s.ballPositionDifference := by
  unfold onGameOver
  simp

@[simp] lemma addBall_diff (s : SceneState) :
    (addBall s).ballPositionDifference = s.ballPositionDifference := by
  unfold addBall
  dsimp only
  split <;> simp [initBallPosition]

@[simp] lemma addBall_tablePositionZ (s : SceneState) :
    (addBall s).tablePositionZ = s.tablePositionZ := by
  unfold addBall
  dsimp only
  split <;> simp [initBallPosition]

@[simp] lemma onReceivedHit_score (p v : Vec3) (w : Bool) (s : SceneState) :
    (onReceivedHit p v w s).score = s.score := by
  unfold onReceivedHit
  dsimp only
  split <;> (try split) <;> simp

@[simp] lemma restartPingpongTimeout_alpha (s : SceneState) :
    (restartPingpongTimeout s).ballInterpolationAlpha = s.ballInterpolationAlpha := by
  unfold restartPingpongTimeout
  dsimp only
  split <;> simp

@[simp] lemma addBall_alpha (s : SceneState) :
    (addBall s).ballInterpolationAlpha = s.ballInterpolationAlpha := by
  unfold addBall
  dsimp only
  split <;> simp [initBallPosition]

@[simp] lemma onReceivedHit_alpha_true (p v : Vec3) (s : SceneState) :
    (onReceivedHit p v true s).ballInterpolationAlpha = s.ballInterpolationAlpha := by
  unfold onReceivedHit
  dsimp only
  rw [if_pos rfl]
  split <;> simp

@[simp] lemma onReceivedHit_diff_true (p v : Vec3) (s : SceneState) :
    (onReceivedHit p v true s).ballPositionDifference = s.ballPositionDifference := by
  unfold onReceivedHit
  dsimp only
  rw [if_pos rfl]
  split <;> simp

/-! ### Freshness of a consumed interval handle (for the self-cancellation
part of the timer claims) -/

/-- The handle `id` is not attached to any pending timer and is stale
(below the fresh-handle counter), so no later scheduling revives it. -/
def idFree (id : ℕ) (s : SceneState) : Prop :=
  (∀ t ∈ s.pending, t.1 ≠ id) ∧ id < s.nextId

lemma idFree_removeTimer_self {s : SceneState} {id : ℕ} (hlt : id < s.nextId) :
    idFree id (removeTimer id s) := by
  refine ⟨?_, hlt⟩
  intro t ht
  have := (List.mem_filter.mp ht).2
  simpa using this

lemma idFree_removeTimer {s : SceneState} {id : ℕ} (h : idFree id s) (i : ℕ) :
    idFree id (removeTimer i s) := by
  refine ⟨?_, h.2⟩
  intro t ht
  exact h.1 t (List.mem_filter.mp ht).1

lemma idFree_clearT {s : SceneState} {id : ℕ} (h : idFree id s) (ho : Option ℕ) :
    idFree id (clearT ho s) := by
  cases ho with
  | none => exact h
  | some i => exact idFree_removeTimer h i

lemma idFree_scheduleReset {s : SceneState} {id : ℕ} (h : idFree id s) :
    idFree id (scheduleReset s) := by
  refine ⟨?_, Nat.lt_succ_of_lt h.2⟩
  intro t ht
  rcases List.mem_cons.mp ht with heq | hmem
  · subst heq
    exact Nat.ne_of_gt h.2
  · exact h.1 t hmem

lemma idFree_scheduleInterval {s : SceneState} {id : ℕ} (h : idFree id s) (n : ℤ) :
    idFree id (scheduleInterval n s) := by
  refine ⟨?_, Nat.lt_succ_of_lt h.2⟩
  intro t ht
  rcases List.mem_cons.mp ht with heq | hmem
  · subst heq
    exact Nat.ne_of_gt h.2
  · exact h.1 t hmem

lemma idFree_restartPingpongTimeout {s : SceneState} {id : ℕ} (h : idFree id s) :
    idFree id (restartPingpongTimeout s) := by
  unfold restartPingpongTimeout
  dsimp only
  split
  · exact idFree_clearT h _
  · exact idFree_scheduleReset (idFree_clearT h _)

lemma idFree_addBall {s : SceneState} {id : ℕ} (h : idFree id s) :
    idFree id (addBall s) := by
  unfold addBall
  dsimp only
  split
  · exact idFree_restartPingpongTimeout h
  · exact idFree_restartPingpongTimeout h

lemma idFree_intervalEnd {s : SceneState} {id : ℕ} (h : idFree id s) :
    idFree id (intervalEnd s) := by
  unfold intervalEnd
  split
  · exact idFree_addBall h
  · split
    · exact idFree_addBall h
    · exact h

lemma idFree_not_mem {s : SceneState} {id : ℕ} (h : idFree id s) :
    id ∉ s.pending.map Prod.fst := by
  intro hmem
  obtain ⟨t, htmem, hteq⟩ := List.mem_map.mp hmem
  exact h.1 t htmem hteq

/-! ### Behaviour of the scoring operations -/

/-- The singleplayer branch of `resetTimeoutEnded` (`scene.js`
lines 858–871): `self` is folded into `highest` and zeroed, a life is
lost, and the game ends exactly when no life remains. -/
lemma resetTimeoutEnded_sp {s : SceneState} (hm : s.mode = Mode.singleplayer)
    (hg : s.gstate ≠ GState.gameOver) :
    (resetTimeoutEnded s).score.lives = s.score.lives - 1 ∧
    ((resetTimeoutEnded s).gstate = GState.gameOver ↔ s.score.lives - 1 < 1) ∧
    (resetTimeoutEnded s).score.self = 0 ∧
    (resetTimeoutEnded s).score.highest = max s.score.self s.score.highest ∧
    (resetTimeoutEnded s).score.opponent = s.score.opponent := by
  unfold resetTimeoutEnded
  dsimp only
  rw [if_neg (by simp [hm])]
  split
  · rename_i hlt
    refine ⟨by simp, ?_, by simp, by simp, by simp⟩
    refine iff_of_true (by simp) ?_
    simpa using hlt
  · rename_i hlt
    refine ⟨by simp, ?_, by simp, by simp, by simp⟩
    refine iff_of_false ?_ (by simpa using hlt)
    simpa using hg

/-- The multiplayer branch of `resetTimeoutEnded` (`scene.js`
lines 827–857): exactly one side's score grows by one, and the game ends
exactly when the grown score reaches the winning threshold. -/
lemma resetTimeoutEnded_mp {s : SceneState} (hm : s.mode = Mode.multiplayer)
    (hg : s.gstate ≠ GState.gameOver) :
    (resetTimeoutEnded s).score.self + (resetTimeoutEnded s).score.opponent
      = s.score.self + s.score.opponent + 1 ∧
    ((resetTimeoutEnded s).gstate = GState.gameOver ↔
      s.pointsForWin ≤ (resetTimeoutEnded s).score.self ∨
      s.pointsForWin ≤ (resetTimeoutEnded s).score.opponent) ∧
    (resetTimeoutEnded s).score.highest = s.score.highest := by
  unfold resetTimeoutEnded
  dsimp only
  rw [if_pos hm]
  split
  · split
    · rename_i hwin
      refine ⟨by simp; ring, ?_, by simp⟩
      refine iff_of_true (by simp) ?_
      simp only [restartPingpongTimeout_score, onGameOver_score]
      rcases (by simpa using hwin : s.pointsForWin ≤ s.score.opponent ∨
        s.pointsForWin ≤ s.score.self + 1) with ho | hs
      · exact Or.inr (by simpa using ho)
      · exact Or.inl (by simpa using hs)
    · rename_i hwin
      refine ⟨by simp; ring, ?_, by simp⟩
      refine iff_of_false (by simpa using hg) ?_
      intro hcontra
      apply hwin
      simp only [restartPingpongTimeout_score, initBallPosition_score] at hcontra
      rcases hcontra with hs | ho
      · exact Or.inr (by simpa using hs)
      · exact Or.inl (by simpa using ho)
  · split
    · rename_i hwin
      refine ⟨by simp; ring, ?_, by simp⟩
      refine iff_of_true (by simp) ?_
      simp only [restartPingpongTimeout_score, onGameOver_score]
      rcases (by simpa using hwin : s.pointsForWin ≤ s.score.opponent + 1 ∨
        s.pointsForWin ≤ s.score.self) with ho | hs
      · exact Or.inr (by simpa using ho)
      · exact Or.inl (by simpa using hs)
    · rename_i hwin
      refine ⟨by simp; ring, ?_, by simp⟩
      refine iff_of_false (by simpa using hg) ?_
      intro hcontra
      apply hwin
      simp only [restartPingpongTimeout_score, initBallPosition_score] at hcontra
      rcases hcontra with hs | ho
      · exact Or.inr (by simpa using hs)
      · exact Or.inl (by simpa using ho)

/-- Receipt of a non-init miss (`scene.js` lines 762–793): exactly one
side's score grows by one, and the resulting state is `GAME_OVER` exactly
when the grown score reaches the winning threshold (otherwise it is
`PLAYING`). -/
lemma onReceivedMiss_noninit {s : SceneState} (p v : Vec3) (fault : Bool) :
    (onReceivedMiss p v fault false s).score.self
        + (onReceivedMiss p v fault false s).score.opponent
      = s.score.self + s.score.opponent + 1 ∧
    ((onReceivedMiss p v fault false s).gstate = GState.gameOver ↔
      s.pointsForWin ≤ (onReceivedMiss p v fault false s).score.self ∨
      s.pointsForWin ≤ (onReceivedMiss p v fault false s).score.opponent) := by
  unfold onReceivedMiss
  dsimp only
  rw [if_neg Bool.false_ne_true]
  split
  · split
    · rename_i hwin
      refine ⟨by simp; ring, ?_⟩
      refine iff_of_true (by simp) ?_
      simp only [onGameOver_score]
      simpa using hwin
    · rename_i hwin
      refine ⟨by simp; ring, ?_⟩
      refine iff_of_false (by simp) ?_
      simp only [onReceivedHit_score]
      simpa using hwin
  · split
    · rename_i hwin
      refine ⟨by simp; ring, ?_⟩
      refine iff_of_true (by simp) ?_
      simp only [onGameOver_score]
      simpa using hwin
    · rename_i hwin
      refine ⟨by simp; ring, ?_⟩
      refine iff_of_false (by simp) ?_
      simp only [onReceivedHit_score]
      simpa using hwin

/-! ### Claim C1 -/

/-- A mid-game multiplayer state with a ball, used to exercise the
interpolation window. -/
def c1Base : SceneState :=
  { initState Mode.multiplayer true 0 11 2 with
    ballExists := true, gstate := GState.playing }

/-- The state right after receiving a remote hit at point `(1,1,1)` with
velocity `(0,0,-2)`. -/
def c1AfterHit : SceneState := onReceivedHit ⟨1, 1, 1⟩ ⟨0, 0, -2⟩ false c1Base

/-- The state once the full 500 ms interpolation window has elapsed with
no further event. -/
def c1AfterWindow : SceneState := interpStep 500 c1AfterHit

/-- When a ball exists, a received real hit records the difference
between the local simulated ball position and the mirrored reported
point (`scene.js` lines 744–747). -/
lemma onReceivedHit_diff_false {s : SceneState} (hb : s.ballExists = true) (p v : Vec3) :
    (onReceivedHit p v false s).ballPositionDifference
      = some (vsub s.ballPos (mirrorPosition p s.tablePositionZ)) := by
  unfold onReceivedHit
  dsimp only
  rw [if_neg Bool.false_ne_true,
    if_pos (show (clearT s.resetBallTimeout s).ballExists = true by simp [hb])]
  simp

/-- Claim C1 is false as stated: after a received hit, once
`ballInterpolationAlpha` has decayed to 0 at the end of the 500 ms
window, `ballPositionDifference` has not been cleared — the tween has no
completion callback, so the difference is still the vector recorded at
the hit. -/
theorem C1_counterexample :
    c1AfterWindow.ballInterpolationAlpha = 0 ∧
    c1AfterWindow.ballPositionDifference = some ⟨1, -1, -3⟩ ∧
    c1AfterWindow.ballPositionDifference ≠ none := by
  have halpha : c1AfterWindow.ballInterpolationAlpha = max 0 (1 - 500 / 500) := rfl
  have hdiff : c1AfterWindow.ballPositionDifference
      = some (vsub c1Base.ballPos (mirrorPosition ⟨1, 1, 1⟩ c1Base.tablePositionZ)) := by
    show c1AfterHit.ballPositionDifference = _
    exact onReceivedHit_diff_false (by decide) _ _
  refine ⟨?_, ?_, ?_⟩
  · rw [halpha]
    norm_num
  · rw [hdiff]
    norm_num [c1Base, initState, vsub, mirrorPosition, Vec3.mk.injEq]
  · rw [hdiff]
    simp

/-- Claim C1, amended: `onReceivedHit` with `wasMiss = false` sets
`ballInterpolationAlpha` to 1 and records a non-null
`ballPositionDifference`; the tween then decays the alpha linearly,
strictly decreasing over exactly the 500 ms window, positive before
500 ms and 0 at 500 ms.  However `ballPositionDifference` is *not*
cleared when the alpha reaches 0: tween playback never changes it (it has
no visual effect once the alpha is 0, since the rendered position equals
the simulated one); it is cleared by the next local paddle hit
(`onBallPaddleCollision`) or received miss (`onReceivedMiss`). -/
theorem C1_theorem :
    (∀ (p v : Vec3) (s : SceneState),
      (onReceivedHit p v false s).ballInterpolationAlpha = 1 ∧
      (onReceivedHit p v false s).ballPositionDifference.isSome = true) ∧
    (∀ (p v : Vec3) (s : SceneState) (t : ℚ),
      (interpStep t (onReceivedHit p v false s)).ballInterpolationAlpha
        = max 0 (1 - t / 500)) ∧
    (∀ (p v : Vec3) (s : SceneState) (t1 t2 : ℚ), 0 ≤ t1 → t1 < t2 → t2 ≤ 500 →
      (interpStep t2 (onReceivedHit p v false s)).ballInterpolationAlpha
        < (interpStep t1 (onReceivedHit p v false s)).ballInterpolationAlpha) ∧
    (∀ (p v : Vec3) (s : SceneState) (t : ℚ), 0 ≤ t → t < 500 →
      0 < (interpStep t (onReceivedHit p v false s)).ballInterpolationAlpha) ∧
    (∀ (p v : Vec3) (s : SceneState),
      (interpStep 500 (onReceivedHit p v false s)).ballInterpolationAlpha = 0) ∧
    (∀ (s : SceneState) (dt : ℚ),
      (interpStep dt s).ballPositionDifference = s.ballPositionDifference) ∧
    (∀ s : SceneState, (onBallPaddleCollision s).ballPositionDifference = none) ∧
    (∀ (p v : Vec3) (fault isInit : Bool) (s : SceneState),
      (onReceivedMiss p v fault isInit s).ballPositionDifference = none) ∧
    (∀ pp d : Vec3, updateBallVisual pp (some d) 0 = pp) := by
  have h500 : (0 : ℚ) < 500 := by norm_num
  have hval : ∀ (p v : Vec3) (s : SceneState) (t : ℚ),
      (interpStep t (onReceivedHit p v false s)).ballInterpolationAlpha
        = max 0 (1 - t / 500) := fun p v s t => rfl
  refine ⟨fun p v s => ⟨rfl, rfl⟩, hval, ?_, ?_, ?_, fun s dt => rfl, ?_, ?_, ?_⟩
  · intro p v s t1 t2 ht1 h12 h2
    rw [hval, hval]
    have hd12 : t1 / 500 < t2 / 500 := by gcongr
    have hd2 : t2 / 500 ≤ 1 := by
      rw [div_le_one h500]
      exact h2
    rw [max_eq_right (by linarith), max_eq_right (by linarith)]
    linarith
  · intro p v s t ht0 ht
    rw [hval]
    have hd : t / 500 < 1 := by
      rw [div_lt_one h500]
      exact ht
    have : (0 : ℚ) < 1 - t / 500 := by linarith
    exact lt_max_iff.mpr (Or.inr this)
  · intro p v s
    rw [hval]
    norm_num
  · intro s
    unfold onBallPaddleCollision
    dsimp only
    split <;> simp
  · intro p v fault isInit s
    unfold onReceivedMiss
    dsimp only
    split <;> (try split) <;> (try split) <;> simp
  · intro pp d
    unfold updateBallVisual lerpVec
    simp

/-- Witness for the amended C1 at the concrete receipt of `c1AfterHit`:
the alpha starts at 1, is 1/2 after 250 ms, 0 at 500 ms, and the recorded
difference survives the window. -/
theorem C1_witness :
    c1AfterHit.ballInterpolationAlpha = 1 ∧
    (interpStep 250 c1AfterHit).ballInterpolationAlpha < 1 ∧
    0 < (interpStep 250 c1AfterHit).ballInterpolationAlpha ∧
    (interpStep 500 c1AfterHit).ballInterpolationAlpha = 0 := by
  refine ⟨(C1_theorem.1 ⟨1, 1, 1⟩ ⟨0, 0, -2⟩ c1Base).1, ?_,
    C1_theorem.2.2.2.1 ⟨1, 1, 1⟩ ⟨0, 0, -2⟩ c1Base 250 (by norm_num) (by norm_num),
    C1_theorem.2.2.2.2.1 ⟨1, 1, 1⟩ ⟨0, 0, -2⟩ c1Base⟩
  have h := C1_theorem.2.1 ⟨1, 1, 1⟩ ⟨0, 0, -2⟩ c1Base 250
  rw [show (interpStep 250 c1AfterHit).ballInterpolationAlpha
    = max 0 (1 - 250 / 500) from h]
  rw [show (1 : ℚ) - 250 / 500 = 1 / 2 by norm_num,
    max_eq_right (by norm_num : (0 : ℚ) ≤ 1 / 2)]
  norm_num

/-! ### Claim C2 -/

/-- A multiplayer game-over state in which only the local player has
requested a restart, with a non-trivial score. -/
def c2State : SceneState :=
  { initState Mode.multiplayer true 5 11 2 with
    score := { self := 5, opponent := 3, lives := 5, highest := 4 },
    playerRequestedRestart := true, gstate := GState.gameOver }

/-- Claim C2 is false as stated: in multiplayer, `restartGame()` with the
two restart flags not both set is *not* a no-op — `resetScore()` runs
before the handshake guard (`scene.js` line 627), so every score field is
wiped even though the restart itself does not happen. -/
theorem C2_counterexample :
    c2State.mode = Mode.multiplayer ∧
    ¬(c2State.playerRequestedRestart = true ∧ c2State.opponentRequestedRestart = true) ∧
    (restartGame c2State).score.self = 0 ∧ c2State.score.self = 5 ∧
    (restartGame c2State).score.highest = 0 ∧ c2State.score.highest = 4 := by
  refine ⟨by decide, by decide, by decide, by decide, by decide, by decide⟩

/-- Claim C2, amended: in multiplayer, a call to `restartGame()` in which
the two restart flags are not both set does not start the countdown, does
not reset the handshake flags, and changes nothing at all *except* the
score, which it unconditionally resets (`self = opponent = highest = 0`,
`lives = startLives`): the call is exactly `resetScore`. -/
theorem C2_theorem (s : SceneState) (hm : s.mode = Mode.multiplayer)
    (hflags : ¬(s.playerRequestedRestart = true ∧ s.opponentRequestedRestart = true)) :
    restartGame s = resetScore s := by
  unfold restartGame
  dsimp only
  split
  · rename_i hsp
    have hsp' : s.mode = Mode.singleplayer := hsp
    rw [hm] at hsp'
    exact Mode.noConfusion hsp'
  · split
    · rename_i hboth
      have hb : s.opponentRequestedRestart = true ∧ s.playerRequestedRestart = true := by
        simpa [Bool.and_eq_true] using hboth
      exact absurd ⟨hb.2, hb.1⟩ hflags
    · rfl

/-- Witness for the amended C2 at the concrete one-sided-restart state. -/
theorem C2_witness : restartGame c2State = resetScore c2State :=
  C2_theorem c2State (by decide) (by decide)

/-! ### Claim C3 -/

/-- A multiplayer state with a ball and `tablePositionZ = 2`, receiving
the spec's Scenario 3 hit. -/
def c3State : SceneState :=
  { initState Mode.multiplayer true 0 11 2 with ballExists := true }

/-- Claim C3: `onReceivedHit` always overwrites the physics ball with the
mirrored reported point (x negated, z reflected about the net axis:
`z ↦ 2·tablePositionZ − z`) and the mirrored velocity (x and z
inverted); in particular, receiving point `(0.5, 0, 1.2)` and velocity
`(0, 0, -2)` with `tablePositionZ = 2` yields position `(-0.5, 0, 2.8)`
and velocity `(0, 0, 2)`. -/
theorem C3_theorem :
    (∀ (p v : Vec3) (w : Bool) (s : SceneState),
      (onReceivedHit p v w s).ballPos = mirrorPosition p s.tablePositionZ ∧
      (onReceivedHit p v w s).ballVel = mirrorVelocity v) ∧
    (∀ (p : Vec3) (z0 : ℚ), mirrorPosition p z0 = ⟨-p.x, p.y, 2 * z0 - p.z⟩) ∧
    (∀ v : Vec3, mirrorVelocity v = ⟨-v.x, v.y, -v.z⟩) ∧
    (onReceivedHit ⟨1/2, 0, 12/10⟩ ⟨0, 0, -2⟩ false c3State).ballPos
      = ⟨-(1/2), 0, 28/10⟩ ∧
    (onReceivedHit ⟨1/2, 0, 12/10⟩ ⟨0, 0, -2⟩ false c3State).ballVel = ⟨0, 0, 2⟩ := by
  have hgen : ∀ (p v : Vec3) (w : Bool) (s : SceneState),
      (onReceivedHit p v w s).ballPos = mirrorPosition p s.tablePositionZ ∧
      (onReceivedHit p v w s).ballVel = mirrorVelocity v := by
    intro p v w s
    constructor
    · show mirrorPosition p _ = mirrorPosition p s.tablePositionZ
      split <;> (try split) <;> simp
    · rfl
  refine ⟨hgen, fun p z0 => rfl, fun v => rfl, ?_, ?_⟩
  · rw [(hgen _ _ _ _).1]
    norm_num [mirrorPosition, c3State, initState, Vec3.mk.injEq]
  · rw [(hgen _ _ _ _).2]
    norm_num [mirrorVelocity, Vec3.mk.injEq]

/-! ### Claim C4 -/

/-- A mid-game singleplayer state with a non-zero own score. -/
def c4State : SceneState :=
  { initState Mode.singleplayer false 3 11 2 with
    score := { self := 2, opponent := 0, lives := 3, highest := 0 },
    gstate := GState.playing, ballExists := true }

/-- A mid-game multiplayer state for the positive half of C4. -/
def c4mpState : SceneState :=
  { initState Mode.multiplayer true 3 11 2 with
    score := { self := 3, opponent := 2, lives := 3, highest := 0 },
    gstate := GState.playing, ballExists := true, ballHasHitEnemyTable := true }

/-- Claim C4 is false as stated: a singleplayer round ending via the
reset timeout is a scoring event of the claim, but there
`score.self + score.opponent` does not increase by 1 — the timeout zeroes
`score.self` (after folding it into `highest`), so from `self = 2` the
sum drops from 2 to 0 instead of rising to 3. -/
theorem C4_counterexample :
    c4State.mode = Mode.singleplayer ∧ c4State.gstate ≠ GState.gameOver ∧
    (resetTimeoutEnded c4State).score.self
      + (resetTimeoutEnded c4State).score.opponent = 0 ∧
    c4State.score.self + c4State.score.opponent + 1 = 3 := by
  refine ⟨by decide, by decide, by decide, by decide⟩

/-- Claim C4, amended: on every *multiplayer* scoring event (the reset
timeout, or receipt of a non-init Miss), `score.self + score.opponent`
increases by exactly 1 and the state becomes GAME_OVER exactly when
either side's new score reaches `POINTS_FOR_WIN`.  On a *singleplayer*
reset timeout, `score.self` is zeroed (not incremented), one life is
lost, and the state becomes GAME_OVER exactly when `lives` drops
below 1. -/
theorem C4_theorem :
    (∀ s : SceneState, s.mode = Mode.multiplayer → s.gstate ≠ GState.gameOver →
      (resetTimeoutEnded s).score.self + (resetTimeoutEnded s).score.opponent
        = s.score.self + s.score.opponent + 1 ∧
      ((resetTimeoutEnded s).gstate = GState.gameOver ↔
        s.pointsForWin ≤ (resetTimeoutEnded s).score.self ∨
        s.pointsForWin ≤ (resetTimeoutEnded s).score.opponent)) ∧
    (∀ (s : SceneState) (p v : Vec3) (fault : Bool), s.mode = Mode.multiplayer →
      (onReceivedMiss p v fault false s).score.self
          + (onReceivedMiss p v fault false s).score.opponent
        = s.score.self + s.score.opponent + 1 ∧
      ((onReceivedMiss p v fault false s).gstate = GState.gameOver ↔
        s.pointsForWin ≤ (onReceivedMiss p v fault false s).score.self ∨
        s.pointsForWin ≤ (onReceivedMiss p v fault false s).score.opponent)) ∧
    (∀ s : SceneState, s.mode = Mode.singleplayer → s.gstate ≠ GState.gameOver →
      (resetTimeoutEnded s).score.self = 0 ∧
      (resetTimeoutEnded s).score.lives = s.score.lives - 1 ∧
      ((resetTimeoutEnded s).gstate = GState.gameOver ↔ s.score.lives - 1 < 1)) := by
  refine ⟨?_, ?_, ?_⟩
  · intro s hm hg
    have h := resetTimeoutEnded_mp hm hg
    exact ⟨h.1, h.2.1⟩
  · intro s p v fault _
    exact onReceivedMiss_noninit p v fault
  · intro s hm hg
    have h := resetTimeoutEnded_sp hm hg
    exact ⟨h.2.2.1, h.1, h.2.1⟩

/-- Witness for the amended C4 at concrete singleplayer and multiplayer
states. -/
theorem C4_witness :
    ((resetTimeoutEnded c4State).score.self = 0 ∧
      (resetTimeoutEnded c4State).score.lives = c4State.score.lives - 1 ∧
      ((resetTimeoutEnded c4State).gstate = GState.gameOver ↔
        c4State.score.lives - 1 < 1)) ∧
    (resetTimeoutEnded c4mpState).score.self
        + (resetTimeoutEnded c4mpState).score.opponent
      = c4mpState.score.self + c4mpState.score.opponent + 1 :=
  ⟨C4_theorem.2.2 c4State (by decide) (by decide),
   (C4_theorem.1 c4mpState (by decide) (by decide)).1⟩

/-! ### Claim C5 -/

/-- Claim C5: on a local multiplayer hit, `slowdownBall` leaves the
physics time-step divisor unchanged when the ball moves toward the local
player (`velocity.z > 0`); when it moves toward the opponent
(`velocity.z < 0`) the divisor becomes
`1000 * (eta + latency/1000) / eta` with
`eta = distance(ball, opponentPaddle) / |velocity|`.  Since ℚ lacks
square roots, `dist` and `speed` are the nonnegative numbers whose
squares are the squared norms computed by the source's `length()`
calls. -/
theorem C5_theorem (ballPos oppPos v : Vec3) (latency oldStep dist speed : ℚ)
    (_hd0 : 0 ≤ dist) (_hd : dist ^ 2 = normSq (vsub ballPos oppPos))
    (_hs0 : 0 ≤ speed) (_hs : speed ^ 2 = normSq v) :
    (v.z < 0 → slowdownBall v.z dist speed latency oldStep
      = 1000 * ((dist / speed + latency / 1000) / (dist / speed))) ∧
    (0 < v.z → slowdownBall v.z dist speed latency oldStep = oldStep) := by
  constructor
  · intro hv
    unfold slowdownBall
    rw [if_neg (not_lt.mpr (le_of_lt hv))]
    dsimp only
    rw [mul_one]
  · intro hv
    unfold slowdownBall
    rw [if_pos hv]

/-- A ball/paddle configuration with rational distances: the offset
`(3,0,4)` has length 5 and the velocity `(0,0,-2)` has length 2. -/
def c5Ball : Vec3 := ⟨3, 0, 4⟩

/-- Opponent paddle at the origin for the C5 witness. -/
def c5Opp : Vec3 := ⟨0, 0, 0⟩

/-- A velocity of length 2 toward the opponent for the C5 witness. -/
def c5Vel : Vec3 := ⟨0, 0, -2⟩

/-- Witness for C5: with distance 5, speed 2, latency 100 ms, the divisor
becomes `1000 * ((5/2 + 100/1000) / (5/2))` (= 1040). -/
theorem C5_witness :
    (0 : ℚ) ≤ 5 ∧ (5 : ℚ) ^ 2 = normSq (vsub c5Ball c5Opp) ∧
    (0 : ℚ) ≤ 2 ∧ (2 : ℚ) ^ 2 = normSq c5Vel ∧ c5Vel.z < 0 ∧
    slowdownBall c5Vel.z 5 2 100 1000 = 1000 * ((5 / 2 + 100 / 1000) / (5 / 2)) := by
  refine ⟨by norm_num, by norm_num [normSq, vsub, c5Ball, c5Opp], by norm_num,
    by norm_num [normSq, c5Vel], by norm_num [c5Vel], ?_⟩
  exact (C5_theorem c5Ball c5Opp c5Vel 100 1000 5 2 (by norm_num)
    (by norm_num [normSq, vsub, c5Ball, c5Opp]) (by norm_num)
    (by norm_num [normSq, c5Vel])).1 (by norm_num [c5Vel])

/-! ### Claim C6 -/

/-- The bounds the spec claims for every paddle target position. -/
def withinTableBounds (cfg : PaddleConfig) (w : Vec3) : Prop :=
  -cfg.tableWidth ≤ w.x ∧ w.x ≤ cfg.tableWidth ∧ 0 ≤ w.z ∧
  w.z ≤ cfg.tablePositionZ + 1 / 2

/-- The clamp helper keeps its value inside the interval spanned by the
two bounds. -/
lemma cap_bounds {lo hi : ℚ} (h : lo ≤ hi) (v : ℚ) :
    lo ≤ cap v hi lo ∧ cap v hi lo ≤ hi := by
  unfold cap
  constructor
  · rw [min_eq_right h]
    exact le_min (le_max_right _ _) (le_max_right _ _)
  · rw [max_eq_left h]
    exact min_le_right _ _

/-- Geometry for the C6 counterexample: `tableWidth = 1`. -/
def c6Cfg : PaddleConfig := ⟨1, 76 / 100, 4, 2⟩

/-- A paddle position far outside the table (reachable because the hit
animation lerps the paddle toward the ball, which is not clamped). -/
def c6Paddle : Vec3 := ⟨5, 1, -3⟩

/-- Claim C6 is false as stated: when the VR controller raycast finds no
intersection with the table plane, `computePaddlePosition` returns the
current paddle position unclamped (`scene.js` line 1013), which can lie
outside the table bounds in both x and z. -/
theorem C6_counterexample :
    computePaddlePosition c6Cfg ⟨0, 0, 0⟩ c6Paddle (PaddleInput.vrController none)
      = c6Paddle ∧
    ¬(c6Paddle.x ≤ c6Cfg.tableWidth) ∧ ¬(0 ≤ c6Paddle.z) := by
  refine ⟨rfl, by norm_num [c6Paddle, c6Cfg], by norm_num [c6Paddle]⟩

/-- Claim C6, amended: whenever the input yields a candidate position —
a VR raycast that hits the table plane, or either mouse mode — the
returned paddle target is clamped to
`[-tableWidth, tableWidth] × [0, tablePositionZ + 0.5]`; but when a VR
raycast misses the plane the current paddle position is returned
unchanged, and it may lie outside those bounds. -/
theorem C6_theorem (cfg : PaddleConfig) (ghost paddlePos : Vec3)
    (hw : 0 ≤ cfg.tableWidth) (hz : 0 ≤ cfg.tablePositionZ + 1 / 2) :
    (∀ q : Vec3, withinTableBounds cfg
      (computePaddlePosition cfg ghost paddlePos (PaddleInput.vrController (some q)))) ∧
    (∀ q : Vec3, withinTableBounds cfg
      (computePaddlePosition cfg ghost paddlePos (PaddleInput.vrGaze (some q)))) ∧
    (∀ dx dy : ℚ, withinTableBounds cfg
      (computePaddlePosition cfg ghost paddlePos (PaddleInput.mouseLocked dx dy))) ∧
    (∀ mx my : ℚ, withinTableBounds cfg
      (computePaddlePosition cfg ghost paddlePos (PaddleInput.mouseFree mx my))) ∧
    computePaddlePosition cfg ghost paddlePos (PaddleInput.vrController none)
      = paddlePos ∧
    computePaddlePosition cfg ghost paddlePos (PaddleInput.vrGaze none) = paddlePos := by
  have hww : -cfg.tableWidth ≤ cfg.tableWidth := by linarith
  refine ⟨?_, ?_, ?_, ?_, rfl, rfl⟩
  · intro q
    exact ⟨(cap_bounds hww _).1, (cap_bounds hww _).2,
      (cap_bounds hz _).1, (cap_bounds hz _).2⟩
  · intro q
    exact ⟨(cap_bounds hww _).1, (cap_bounds hww _).2,
      (cap_bounds hz _).1, (cap_bounds hz _).2⟩
  · intro dx dy
    exact ⟨(cap_bounds hww _).1, (cap_bounds hww _).2,
      (cap_bounds hz _).1, (cap_bounds hz _).2⟩
  · intro mx my
    exact ⟨(cap_bounds hww _).1, (cap_bounds hww _).2,
      (cap_bounds hz _).1, (cap_bounds hz _).2⟩

/-- Witness for the amended C6 at a concrete configuration and inputs. -/
theorem C6_witness :
    withinTableBounds c6Cfg
      (computePaddlePosition c6Cfg ⟨0, 0, 0⟩ c6Paddle
        (PaddleInput.mouseFree (3 / 10) (2 / 10))) ∧
    withinTableBounds c6Cfg
      (computePaddlePosition c6Cfg ⟨0, 0, 0⟩ c6Paddle
        (PaddleInput.vrController (some ⟨7, 1, 9⟩))) ∧
    computePaddlePosition c6Cfg ⟨0, 0, 0⟩ c6Paddle (PaddleInput.vrController none)
      = c6Paddle := by
  have h := C6_theorem c6Cfg ⟨0, 0, 0⟩ c6Paddle (by norm_num [c6Cfg])
    (by norm_num [c6Cfg])
  exact ⟨h.2.2.2.1 (3 / 10) (2 / 10), h.1 ⟨7, 1, 9⟩, h.2.2.2.2.1⟩

/-! ### Claim C7 -/

/-- Fresh singleplayer scene with `startLives = 3`. -/
def c7s0 : SceneState := initState Mode.singleplayer false 3 11 2

/-- Game started: countdown running. -/
def c7s1 : SceneState := applyEv Ev.start c7s0

/-- First countdown tick. -/
def c7s2 : SceneState := applyEv (Ev.fireIntervalEv 0 2) c7s1

/-- Second countdown tick. -/
def c7s3 : SceneState := applyEv (Ev.fireIntervalEv 0 1) c7s2

/-- Third countdown tick: the interval self-cancels and the ball is
added (play begins, watchdog armed). -/
def c7s4 : SceneState := applyEv (Ev.fireIntervalEv 0 0) c7s3

/-- First uninterrupted reset timeout. -/
def c7s5 : SceneState := applyEv (Ev.fireResetEv 1) c7s4

/-- Second uninterrupted reset timeout. -/
def c7s6 : SceneState := applyEv (Ev.fireResetEv 2) c7s5

/-- Third uninterrupted reset timeout. -/
def c7s7 : SceneState := applyEv (Ev.fireResetEv 3) c7s6

/-- The C7 scenario trace is a legal event sequence. -/
lemma c7_reach : Reach c7s0 c7s7 := by
  refine Relation.ReflTransGen.head ⟨Ev.start, by decide, rfl⟩ ?_
  refine Relation.ReflTransGen.head ⟨Ev.fireIntervalEv 0 2, by decide, rfl⟩ ?_
  refine Relation.ReflTransGen.head ⟨Ev.fireIntervalEv 0 1, by decide, rfl⟩ ?_
  refine Relation.ReflTransGen.head ⟨Ev.fireIntervalEv 0 0, by decide, rfl⟩ ?_
  refine Relation.ReflTransGen.head ⟨Ev.fireResetEv 1, by decide, rfl⟩ ?_
  refine Relation.ReflTransGen.head ⟨Ev.fireResetEv 2, by decide, rfl⟩ ?_
  refine Relation.ReflTransGen.head ⟨Ev.fireResetEv 3, by decide, rfl⟩ ?_
  exact Relation.ReflTransGen.refl

/-- Claim C7: in singleplayer each reset-timeout firing decrements
`lives` by exactly 1 and emits GAME_OVER exactly when the decremented
`lives` falls below 1; concretely, from `startLives = 3`, three
uninterrupted timeout firings end the game with `score.lives = 0`. -/
theorem C7_theorem :
    (∀ s : SceneState, s.mode = Mode.singleplayer → s.gstate ≠ GState.gameOver →
      (resetTimeoutEnded s).score.lives = s.score.lives - 1 ∧
      ((resetTimeoutEnded s).gstate = GState.gameOver ↔ s.score.lives - 1 < 1)) ∧
    (Reach c7s0 c7s7 ∧ c7s0.startLives = 3 ∧ c7s0.score.lives = 3 ∧
      c7s7.gstate = GState.gameOver ∧ c7s7.score.lives = 0) := by
  refine ⟨?_, c7_reach, by decide, by decide, by decide, by decide⟩
  intro s hm hg
  have h := resetTimeoutEnded_sp hm hg
  exact ⟨h.1, h.2.1⟩

/-- Witness for C7's per-firing law at the concrete second timeout of the
scenario trace. -/
theorem C7_witness :
    (resetTimeoutEnded c7s5).score.lives = c7s5.score.lives - 1 ∧
    ((resetTimeoutEnded c7s5).gstate = GState.gameOver ↔ c7s5.score.lives - 1 < 1) :=
  C7_theorem.1 c7s5 (by decide) (by decide)

/-! ### Claim C8 -/

/-- Fresh multiplayer scene (host side). -/
def c8s0 : SceneState := initState Mode.multiplayer true 1 11 2

/-- `startGame` ran: the local countdown request is recorded and sent. -/
def c8s1 : SceneState := applyEv Ev.start c8s0

/-- A `RequestCountdown` message arrives: both flags now hold, the
countdown starts and its interval is scheduled. -/
def c8s2 : SceneState := applyEv Ev.recvReqCountdown c8s1

/-- A second `RequestCountdown` arrives while the first countdown is
still pending: the flags are still both true (they are never reset), so
`countdown()` runs again and schedules a second interval. -/
def c8s3 : SceneState := applyEv Ev.recvReqCountdown c8s2

/-- One tick of the first interval. -/
def c8s4 : SceneState := applyEv (Ev.fireIntervalEv 0 2) c8s3

/-- A second tick: the first interval's counter is now 0, so its next
firing self-cancels. -/
def c8s5 : SceneState := applyEv (Ev.fireIntervalEv 0 1) c8s4

/-- The duplicate-request trace is a legal event sequence. -/
lemma c8_reach3 : Reach c8s0 c8s3 := by
  refine Relation.ReflTransGen.head ⟨Ev.start, by decide, rfl⟩ ?_
  refine Relation.ReflTransGen.head ⟨Ev.recvReqCountdown, by decide, rfl⟩ ?_
  refine Relation.ReflTransGen.head ⟨Ev.recvReqCountdown, by decide, rfl⟩ ?_
  exact Relation.ReflTransGen.refl

/-- Extension of the trace by two interval ticks. -/
lemma c8_reach5 : Reach c8s0 c8s5 := by
  refine Relation.ReflTransGen.trans c8_reach3 ?_
  refine Relation.ReflTransGen.head ⟨Ev.fireIntervalEv 0 2, by decide, rfl⟩ ?_
  refine Relation.ReflTransGen.head ⟨Ev.fireIntervalEv 0 1, by decide, rfl⟩ ?_
  exact Relation.ReflTransGen.refl

/-- Claim C8 is false as stated: a state with two simultaneously pending
countdown intervals is reachable — `countdown()` never cancels a pending
interval, and the countdown-request flags are never reset, so a second
received `RequestCountdown` starts a second interval while the first is
still pending. -/
theorem C8_counterexample :
    Reach c8s0 c8s3 ∧ countInterval c8s3.pending = 2 ∧
    ¬(countInterval c8s3.pending ≤ 1) := by
  refine ⟨c8_reach3, by decide, by decide⟩

/-- Claim C8, amended: in every reachable state at most one reset-ball
timer is pending (every scheduling of it first cancels the stored one),
and a countdown interval whose captured counter has reached its final
tick cancels itself: after that firing its handle is pending no more. -/
theorem C8_theorem (m : Mode) (host : Bool) (sl pw : ℤ) (z0 : ℚ) (s : SceneState)
    (h : Reach (initState m host sl pw z0) s) :
    countReset s.pending ≤ 1 ∧
    (∀ id n, (id, TimerKind.interval n) ∈ s.pending → n - 1 < 0 →
      id ∉ (fireInterval id n s).pending.map Prod.fst) := by
  have hg := goodState_reachable h
  refine ⟨countReset_le_one hg.1, ?_⟩
  intro id n hmem hneg
  unfold fireInterval
  rw [if_pos hneg]
  exact idFree_not_mem (idFree_intervalEnd (idFree_removeTimer_self
    (hg.1.1 (id, TimerKind.interval n) hmem)))

/-- Witness for the amended C8 on the duplicate-countdown trace: the
reset-timer bound holds, and the exhausted first interval disappears when
it fires. -/
theorem C8_witness :
    countReset c8s5.pending ≤ 1 ∧
    (0, TimerKind.interval 0) ∈ c8s5.pending ∧
    0 ∉ (fireInterval 0 0 c8s5).pending.map Prod.fst := by
  have h := C8_theorem Mode.multiplayer true 1 11 2 c8s5 c8_reach5
  exact ⟨h.1, by decide, h.2 0 0 (by decide) (by decide)⟩

/-! ### Claim C9 -/

/-- Payload vector for the C9 trace (its value is irrelevant). -/
def c9p : Vec3 := ⟨0, 0, 0⟩

/-- Fresh multiplayer host scene with `POINTS_FOR_WIN = 2`. -/
def c9s0 : SceneState := initState Mode.multiplayer true 0 2 2

/-- A remote hit arrives with no ball yet: a ball is created and the
watchdog armed. -/
def c9s1 : SceneState := applyEv (Ev.recvHit c9p c9p) c9s0

/-- The watchdog fires: the opponent scores (1 of 2), ball respawned. -/
def c9s2 : SceneState := applyEv (Ev.fireResetEv 0) c9s1

/-- The watchdog fires again: the opponent reaches 2 and the game is
over (`onGameOver` ran). -/
def c9s3 : SceneState := applyEv (Ev.fireResetEv 1) c9s2

/-- The local player presses restart: `resetScore` wipes the score below
the winning threshold, but the state stays GAME_OVER (one-sided
handshake). -/
def c9s4 : SceneState := applyEv Ev.pressRestart c9s3

/-- A non-init Miss arrives (the peers' watchdogs raced): the new score 1
is below the threshold, so the handler adopts the respawned ball and sets
the state back to PLAYING — without `addBall` (a ball exists). -/
def c9s5 : SceneState := applyEv (Ev.recvMiss c9p c9p false false) c9s4

/-- A local paddle hit restarts the watchdog (state is PLAYING). -/
def c9s6 : SceneState := applyEv Ev.paddleHit c9s5

/-- The watchdog fires: `resetTimeoutEnded` runs again although no
`addBall` has happened since the game ended. -/
def c9s7 : SceneState := applyEv (Ev.fireResetEv 2) c9s6

/-- The game-over prefix of the C9 trace is a legal event sequence. -/
lemma c9_reach3 : Reach c9s0 c9s3 := by
  refine Relation.ReflTransGen.head ⟨Ev.recvHit c9p c9p, by decide, rfl⟩ ?_
  refine Relation.ReflTransGen.head ⟨Ev.fireResetEv 0, by decide, rfl⟩ ?_
  refine Relation.ReflTransGen.head ⟨Ev.fireResetEv 1, by decide, rfl⟩ ?_
  exact Relation.ReflTransGen.refl

/-- The events that follow the game over in the C9 trace. -/
def c9Events : List Ev :=
  [Ev.pressRestart, Ev.recvMiss c9p c9p false false, Ev.paddleHit, Ev.fireResetEv 2]

/-- Claim C9 is false as stated: from a reachable GAME_OVER state,
`resetTimeoutEnded` can fire again without any ball being re-added —
a one-sided restart wipes the score, a received non-init Miss then sets
the state back to PLAYING without calling `addBall` (the ball entity
still exists), a paddle hit re-arms the watchdog, and it fires. -/
theorem C9_counterexample :
    Reach c9s0 c9s3 ∧ c9s3.gstate = GState.gameOver ∧
    QuietPath c9s3 c9Events c9s7 ∧ Ev.fireResetEv 2 ∈ c9Events := by
  refine ⟨c9_reach3, by decide, ?_, by decide⟩
  refine QuietPath.cons (by decide) (by decide) ?_
  refine QuietPath.cons (by decide) (by decide) ?_
  refine QuietPath.cons (by decide) (by decide) ?_
  refine QuietPath.cons (by decide) (by decide) ?_
  exact QuietPath.nil c9s7

/-- Claim C9, amended: in every reachable GAME_OVER state,
`restartPingpongTimeout` only cancels (it schedules nothing), no
reset-ball timer is pending, and `resetTimeoutEnded` cannot fire — the
watchdog can only fire again after some event has left the GAME_OVER
state, which `addBall` does but also a received below-threshold non-init
Miss does. -/
theorem C9_theorem (m : Mode) (host : Bool) (sl pw : ℤ) (z0 : ℚ) (s : SceneState)
    (h : Reach (initState m host sl pw z0) s) (hgo : s.gstate = GState.gameOver) :
    restartPingpongTimeout s = clearT s.resetBallTimeout s ∧
    NoReset s ∧ (∀ id, ¬ enabledEv (Ev.fireResetEv id) s) := by
  have hg := goodState_reachable h
  have hnr : NoReset s := hg.2 hgo
  refine ⟨?_, hnr, ?_⟩
  · unfold restartPingpongTimeout
    dsimp only
    rw [if_pos (show (clearT s.resetBallTimeout s).gstate = GState.gameOver by
      simp [hgo])]
  · intro id hid
    have hid' : (id, TimerKind.reset) ∈ s.pending := hid
    have := (noReset_iff _).mp hnr (id, TimerKind.reset) hid'
    simp [isReset] at this

/-- Witness for the amended C9 at the concrete reachable GAME_OVER state
of the C9 trace. -/
theorem C9_witness :
    restartPingpongTimeout c9s3 = clearT c9s3.resetBallTimeout c9s3 ∧
    NoReset c9s3 ∧ (∀ id, ¬ enabledEv (Ev.fireResetEv id) c9s3) :=
  C9_theorem Mode.multiplayer true 0 2 2 c9s3 c9_reach3 (by decide)

/-! ### Claim C10 -/

/-- `resetTimeoutEnded` never lowers `score.highest`: the multiplayer
branch leaves it unchanged and the singleplayer branch sets it to
`max(self, highest)`. -/
lemma highest_le_resetTimeoutEnded (s : SceneState) :
    s.score.highest ≤ (resetTimeoutEnded s).score.highest := by
  unfold resetTimeoutEnded
  dsimp only
  split <;> (try split) <;> (try split) <;> simp [le_max_right]

/-- Claim C10: `score.highest` never decreases under any scoring or
timeout operation — the singleplayer reset timeout sets it to
`max(self, highest)` — and `resetScore` is the operation that lowers it,
setting it to 0. -/
theorem C10_theorem :
    (∀ s : SceneState, s.score.highest ≤ (onBallPaddleCollision s).score.highest) ∧
    (∀ s : SceneState, s.score.highest ≤ (resetTimeoutEnded s).score.highest) ∧
    (∀ (s : SceneState) (id : ℕ), s.score.highest ≤ (fireReset id s).score.highest) ∧
    (∀ (p v : Vec3) (fault isInit : Bool) (s : SceneState),
      s.score.highest ≤ (onReceivedMiss p v fault isInit s).score.highest) ∧
    (∀ (p v : Vec3) (w : Bool) (s : SceneState),
      (onReceivedHit p v w s).score.highest = s.score.highest) ∧
    (∀ s : SceneState, s.mode = Mode.singleplayer →
      (resetTimeoutEnded s).score.highest = max s.score.self s.score.highest) ∧
    (∀ s : SceneState, (resetScore s).score.highest = 0) := by
  refine ⟨?_, highest_le_resetTimeoutEnded, ?_, ?_, ?_, ?_, fun s => rfl⟩
  · intro s
    unfold onBallPaddleCollision
    dsimp only
    split <;> simp
  · intro s id
    exact highest_le_resetTimeoutEnded (removeTimer id s)
  · intro p v fault isInit s
    unfold onReceivedMiss
    dsimp only
    split <;> (try split) <;> (try split) <;> simp
  · intro p v w s
    rw [onReceivedHit_score]
  · intro s hm
    unfold resetTimeoutEnded
    dsimp only
    rw [if_neg (by simp [hm])]
    split <;> simp

/-- Witness for C10 at a concrete singleplayer state with `self = 2`. -/
theorem C10_witness :
    (resetTimeoutEnded c4State).score.highest
      = max c4State.score.self c4State.score.highest ∧
    c4State.score.highest ≤ (resetTimeoutEnded c4State).score.highest :=
  ⟨C10_theorem.2.2.2.2.2.1 c4State (by decide), C10_theorem.2.1 c4State⟩

end Konterball
